import Mathlib

/-!
Verification of the Text2BPMN lane partition/render/merge pipeline.

This file is a shallow embedding, in Lean 4, of the core pipeline of the
Text2BPMN repository: the flow partitioner and lane normalizer
(src/core/generator.py), the fragment cleaner/validator
(src/core/validator.py), the layout-service wrapper (src/core/layout.py),
and the diagram merger (src/core/merger.py).

Modelling conventions:
- Python strings are Lean `String`s; character-level scans are done on
  `List Char`, which matches Python's code-point view of `str`.
- XML coordinates are Python floats that the code reads with `float(...)`,
  combines with `+`, `-`, `min`, `max`, and writes back with `str(...)`.
  All of these are exact on the values involved, so coordinates are
  modelled as rationals (`ℚ`).
- Python's `round` (banker's rounding) and `int` (truncation toward zero)
  are modelled explicitly as `python_round` and `py_int`.
- `xml.etree.ElementTree` documents are modelled structurally: a document
  has an optional `bpmn:process` (children: one `laneSet` plus flow nodes
  and sequence flows) and an optional `bpmndi:BPMNPlane` (children: shapes
  and edges, in document order).  `find` is first-match lookup in document
  order, as in ElementTree.
- A missing XML attribute read through `.get(...)` is an `Option`;
  interpolating `None` into an f-string produces the literal "None",
  modelled by `attr_str`.
-/

deriving instance DecidableEq for Except

attribute [local semireducible] Rat.add Rat.sub Rat.mul Rat.inv

namespace Text2BPMN

/-- Python `\s` whitespace class (re module, ASCII-relevant part). -/
def py_space (c : Char) : Bool :=
  c == ' ' || c == '\t' || c == '\n' || c == '\r' || c == '\x0b' || c == '\x0c'

/-- Python `str.strip()`: drop leading and trailing whitespace. -/
def py_strip_list (l : List Char) : List Char :=
  ((l.dropWhile py_space).reverse.dropWhile py_space).reverse

/-- Python `str.strip()` on a `String`. -/
def py_strip (s : String) : String :=
  ⟨py_strip_list s.toList⟩

/-- Substring test: `pat in s` in Python. Structural on `s`. -/
def contains_sub : List Char → List Char → Bool
  | _, [] => true
  | [], _ :: _ => false
  | c :: cs, p :: ps => (p :: ps).isPrefixOf (c :: cs) || contains_sub cs (p :: ps)

/-- `pat in s` for `String`s (Python's `in` operator on `str`). -/
def str_contains (s pat : String) : Bool :=
  contains_sub s.toList pat.toList

/-- Split around the first occurrence of `pat`: returns the part before and
the part after the first match, or `none` when `pat` does not occur. -/
def split_first : List Char → List Char → Option (List Char × List Char)
  | s, [] => some ([], s)
  | [], _ :: _ => none
  | c :: cs, p :: ps =>
    if (p :: ps).isPrefixOf (c :: cs) then
      some ([], (c :: cs).drop (p :: ps).length)
    else
      (split_first cs (p :: ps)).map (fun q => (c :: q.1, q.2))

/-- One pass of `re.sub(pat + r"\s*", "", text)` for a literal, non-empty
pattern `p :: ps`, structurally recursive on a fuel argument: every
occurrence of the pattern together with the greedy run of whitespace after
it is deleted, scanning left to right without overlap, exactly as `re.sub`
does.  Every recursive call strictly shrinks the text, so fuel equal to
the text's length (as supplied by `sub_pattern_ws`) never runs out. -/
def sub_pattern_ws_fuel (p : Char) (ps : List Char) : Nat → List Char → List Char
  | 0, l => l
  | _ + 1, [] => []
  | fuel + 1, c :: cs =>
    if (p :: ps).isPrefixOf (c :: cs) then
      sub_pattern_ws_fuel p ps fuel ((cs.drop ps.length).dropWhile py_space)
    else
      c :: sub_pattern_ws_fuel p ps fuel cs

/-- The `re.sub(pat + r"\s*", "", text)` pass at full fuel. -/
def sub_pattern_ws (p : Char) (ps : List Char) (l : List Char) : List Char :=
  sub_pattern_ws_fuel p ps l.length l

/-- Floor of a rational, computed by floor division of the numerator by
the (positive) denominator. -/
def rat_floor (q : ℚ) : ℤ :=
  q.num.fdiv q.den

/-- Python `int(q)`: truncation toward zero. -/
def py_int (q : ℚ) : ℤ :=
  if 0 ≤ q then rat_floor q else -rat_floor (-q)

/-- Python `round(q)` with no digits: round half to even. -/
def python_round (q : ℚ) : ℤ :=
  let f : ℤ := rat_floor q
  let r : ℚ := q - (f : ℚ)
  if r < 1/2 then f
  else if 1/2 < r then f + 1
  else if f % 2 = 0 then f else f + 1

/-- `str.lower()` on the characters of a string. -/
def py_lower (s : String) : String :=
  ⟨s.toList.map Char.toLower⟩

/-- An XML attribute value interpolated into a Python f-string:
`None` prints as the literal string "None". -/
def attr_str (o : Option String) : String :=
  o.getD "None"

/-! ## JSON process model (src/utils/models.py)

The pydantic schema: every field below is required by `BPMNResponse`
validation, optional fields are `Option`.  A lane dict coming out of
schema validation has no "sequenceFlows" key; the generator adds it, so
the field is an `Option` (absent key = `none`). -/

structure Element where
  id : String
  type : String
  name : String
  eventType : Option String := none
  gatewayDirection : Option String := none
deriving DecidableEq

structure SequenceFlow where
  id : String
  sourceRef : String
  targetRef : String
  name : Option String := none
  conditionExpression : Option String := none
deriving DecidableEq

structure Lane where
  id : String
  name : String
  order : Int
  elements : List Element
  sequenceFlows : Option (List SequenceFlow) := none
deriving DecidableEq

structure Pool where
  id : String
  name : String
  lanes : List Lane
  sequenceFlows : List SequenceFlow
deriving DecidableEq

structure Process where
  id : String
  name : String
  pool : Pool
deriving DecidableEq

structure BPMN where
  process : Process
deriving DecidableEq

structure BPMNResponse where
  bpmn : BPMN
  reasoning : String
deriving DecidableEq

/-! ## Flow partitioner (generator.py, `_extract_all_sequence_flows`) -/

/-- Python dict as an insertion-ordered association list: assignment
`d[k] = v` overwrites the first entry holding `k` or appends a new one
(keys stay unique when built this way, as a dict's are). -/
def dict_set : List (String × String) → String → String → List (String × String)
  | [], k, v => [(k, v)]
  | (k', v') :: rest, k, v =>
    if k' == k then (k', v) :: rest else (k', v') :: dict_set rest k v

/-- Python `d.get(k)`: first entry with key `k` (keys are unique). -/
def dict_get (d : List (String × String)) (k : String) : Option String :=
  (d.find? (fun p => p.1 == k)).map (fun p => p.2)

/-- The `element id -> lane id` index, built in one pass over all lanes. -/
def element_to_lane_index (lanes : List Lane) : List (String × String) :=
  lanes.foldl (fun d lane =>
    lane.elements.foldl (fun d el => dict_set d el.id lane.id) d) []

/-- `same_flow["sequenceFlows"]`: a dict from lane id to its flow list;
appending to a key's list, creating the key on first use. -/
def flows_dict_append : List (String × List SequenceFlow) → String → SequenceFlow →
    List (String × List SequenceFlow)
  | [], k, f => [(k, [f])]
  | (k', fs) :: rest, k, f =>
    if k' == k then (k', fs ++ [f]) :: rest else (k', fs) :: flows_dict_append rest k f

/-- Lookup in the same-lane dict, with Python's `.get(k, [])` default. -/
def flows_dict_get (d : List (String × List SequenceFlow)) (k : String) : List SequenceFlow :=
  ((d.find? (fun p => p.1 == k)).map (fun p => p.2)).getD []

/-- The loop body of `_extract_all_sequence_flows`, folded over the global
flow list.  `if source_lane and target_lane and source_lane == target_lane`
uses Python truthiness: a `None` (unresolved) or empty-string lane id is
falsy and sends the flow to the cross-lane bucket. -/
def partition_step (idx : List (String × String))
    (acc : List (String × List SequenceFlow) × List SequenceFlow) (flow : SequenceFlow) :
    List (String × List SequenceFlow) × List SequenceFlow :=
  let source_lane := dict_get idx flow.sourceRef
  let target_lane := dict_get idx flow.targetRef
  match source_lane, target_lane with
  | some s, some t =>
    if ¬s.isEmpty ∧ ¬t.isEmpty ∧ s = t then
      (flows_dict_append acc.1 s flow, acc.2)
    else
      (acc.1, acc.2 ++ [flow])
  | _, _ => (acc.1, acc.2 ++ [flow])

/-- `_extract_all_sequence_flows`: split the pool's global sequence flows
into the same-lane dict and the cross-lane list. -/
def extract_all_sequence_flows (jb : BPMN) :
    List (String × List SequenceFlow) × List SequenceFlow :=
  let idx := element_to_lane_index jb.process.pool.lanes
  jb.process.pool.sequenceFlows.foldl (partition_step idx) ([], [])

/-! ## Lane normalizer (generator.py, `_extract_all_lanes` / `_add_flows_to_lane`) -/

/-- `_add_flows_to_lane`: create the "sequenceFlows" key when absent, then
extend the lane's flow list with the lane's same-lane flows. -/
def add_flows_to_lane (lane : Lane) (flows_for_lane : List SequenceFlow) : Lane :=
  { lane with sequenceFlows := some (lane.sequenceFlows.getD [] ++ flows_for_lane) }

/-- The synthetic start event inserted by the normalizer. -/
def mock_start_event : Element :=
  { id := "mock_start_event", type := "startEvent", name := "mock start",
    eventType := some "none" }

/-- The synthetic end event appended by the normalizer. -/
def mock_end_event : Element :=
  { id := "mock_end_event", type := "endEvent", name := "mock end",
    eventType := some "none" }

/-- Normalization of one lane, as done inside `_extract_all_lanes`:
attach the same-lane flows, then conditionally insert the mock start event
(with connecting flow `mock_start_event_flow`) and the mock end event
(with connecting flow `end_event_flow` — note the id, taken verbatim from
the source, does not follow the `mock_` naming).  Indexing
`lane["elements"][1]` (resp. `[-2]`) raises `IndexError` when the lane had
no elements, modelled as `Except.error`. -/
def normalize_lane (lane0 : Lane) (flows_for_lane : List SequenceFlow) :
    Except String Lane := do
  let lane := add_flows_to_lane lane0 flows_for_lane
  let lane ←
    if lane.elements.any (fun e => e.type == "startEvent") then pure lane
    else
      match lane.elements with
      | [] => Except.error "IndexError: list index out of range"
      | first :: restEls =>
        pure { lane with
          elements := mock_start_event :: first :: restEls,
          sequenceFlows := some
            ({ id := "mock_start_event_flow",
               sourceRef := mock_start_event.id,
               targetRef := first.id } :: lane.sequenceFlows.getD []) }
  if lane.elements.any (fun e => e.type == "endEvent") then pure lane
  else
    match lane.elements.getLast? with
    | none => Except.error "IndexError: list index out of range"
    | some last =>
      pure { lane with
        elements := lane.elements ++ [mock_end_event],
        sequenceFlows := some (lane.sequenceFlows.getD [] ++
          [{ id := "end_event_flow",
             sourceRef := last.id,
             targetRef := mock_end_event.id }]) }

/-- `_extract_all_lanes`: normalize every lane of the pool with its
same-lane flows. -/
def extract_all_lanes (jb : BPMN) (same_flow : List (String × List SequenceFlow)) :
    Except String (List Lane) :=
  jb.process.pool.lanes.mapM (fun lane =>
    normalize_lane lane (flows_dict_get same_flow lane.id))

/-! ## Fragment cleaner / validator (src/core/validator.py) -/

def REQUIRED_ELEMENTS : List String := ["definitions", "process", "startEvent", "endEvent"]

/-- `XMLValidator.clean_xml`: `re.sub` away markdown fences (the literal
patterns followed by whitespace), then strip. -/
def clean_xml (xml : String) : String :=
  let l1 := sub_pattern_ws '\x60' "\x60\x60xml".toList xml.toList
  let l2 := sub_pattern_ws '\x60' "\x60\x60".toList l1
  ⟨py_strip_list l2⟩

/-- `XMLValidator.validate`: empty content, missing XML declaration, a
missing required element (substring test), or unbalanced `<`/`>` counts
raise `BPMNValidationError`; otherwise return unit. -/
def validate (xml : String) : Except String Unit :=
  if xml.toList.isEmpty then
    Except.error "Empty XML content"
  else if ¬("<?xml".toList.isPrefixOf xml.toList) then
    Except.error "Missing XML declaration. BPMN file must start with <?xml version=\"1.0\"?>"
  else
    match REQUIRED_ELEMENTS.find? (fun el => ¬str_contains xml el) with
    | some el =>
      Except.error ("Missing required BPMN element: <" ++ el ++ ">. " ++
        "A valid BPMN diagram must contain: " ++ String.intercalate ", " REQUIRED_ELEMENTS)
    | none =>
      if xml.toList.count '<' ≠ xml.toList.count '>' then
        Except.error "Malformed XML: Unbalanced tags detected"
      else
        Except.ok ()

/-- `XMLValidator.remove_file_wrapper`: `re.search(r"<file>(.*?)</file>", s,
DOTALL)` takes the text from the first `<file>` up to the first `</file>`
after it, stripped; no match raises. -/
def remove_file_wrapper (llm_xml : String) : Except String String :=
  match split_first llm_xml.toList "<file>".toList with
  | none => Except.error "Failed to generate BPMN file."
  | some (_, after) =>
    match split_first after "</file>".toList with
    | none => Except.error "Failed to generate BPMN file."
    | some (inner, _) => Except.ok ⟨py_strip_list inner⟩

/-- `XMLValidator.validate_and_clean`: clean, validate, return the cleaned
text.  (The call site in generator.py spells the name `clean_and_validate`;
validator.py defines `validate_and_clean` — the intended function is this
one.) -/
def validate_and_clean (xml : String) : Except String String :=
  let c := clean_xml xml
  (validate c).map (fun _ => c)

/-! ## Layout service (src/core/layout.py, `apply_layout`) -/

/-- Outcome of `subprocess.run(["node", script], input=..., timeout=t)`:
either `TimeoutExpired` or completion with a return code and the two
captured streams. -/
inductive SubprocOutcome where
  | timedOut
  | completed (returncode : Int) (stdout : String) (stderr : String)
deriving DecidableEq

/-- The timeout, in seconds, passed to `subprocess.run` by `apply_layout`. -/
def layout_timeout_seconds : Nat := 30

/-- `BPMNLayoutService.apply_layout`, with the node subprocess abstracted as
a function from the granted timeout (in seconds) to its outcome.  A
timeout, a nonzero exit code, an empty output, or an output shorter than
80% of the input's length is a fatal `BPMNLayoutError`; the ratio test
`len(out) < len(in) * 0.8` is modelled exactly over the rationals. -/
def apply_layout (bpmn_xml : String) (run_node : Nat → SubprocOutcome) :
    Except String String :=
  match run_node layout_timeout_seconds with
  | .timedOut =>
    Except.error "Auto-layout timed out after 30 seconds. The BPMN diagram might be too complex."
  | .completed rc out err =>
    if rc ≠ 0 then
      Except.error ("Auto-layout failed: " ++
        (if err.toList.isEmpty then "Unknown error" else ⟨py_strip_list err.toList⟩))
    else if out.toList.isEmpty ∨ (out.toList.length : ℚ) < (bpmn_xml.toList.length : ℚ) * (4/5) then
      Except.error "Auto-layout produced invalid output"
    else
      Except.ok out

/-! ## JSON generation with retry (generator.py, `_generate_process_json`) -/

/-- One attempt of the generation + schema-validation step.  `call_llm` may
raise `LLMServiceError` (not caught by the retry loop); `json.loads` /
pydantic validation failures (`json.JSONDecodeError`, `BPMNJsonError`) are
the retryable errors. -/
inductive GenAttemptResult where
  | success (resp : BPMNResponse)
  | invalidJson (err : String)
  | serviceFailure (err : String)
deriving DecidableEq

/-- Errors escaping `_generate_process_json`: a propagated service error,
or the final `BPMNJsonError` carrying the last retryable cause. -/
inductive GenError where
  | service (msg : String)
  | schema (lastCause : Option String)
deriving DecidableEq

/-- The retry loop `for attempt in range(1, max_attempts + 1)`, with the
current attempt number, the remaining attempt budget, and the recorded
`last_error`. -/
def gen_attempts (f : Nat → GenAttemptResult) :
    Nat → Nat → Option String → Except GenError BPMNResponse
  | _, 0, lastErr => Except.error (.schema lastErr)
  | attempt, remaining + 1, _lastErr =>
    match f attempt with
    | .success r => Except.ok r
    | .invalidJson e => gen_attempts f (attempt + 1) remaining (some e)
    | .serviceFailure e => Except.error (.service e)

/-- `_generate_process_json`: up to `max_attempts` (default 3) attempts,
starting at attempt 1 with no recorded error. -/
def generate_process_json (f : Nat → GenAttemptResult) (max_attempts : Nat := 3) :
    Except GenError BPMNResponse :=
  gen_attempts f 1 max_attempts none

/-! ## Orchestrator (generator.py, `generate_bpmn`)

The two string-level collaborators are parameters: `render_lane` is the
`02_generate_little_xml.txt` LLM call (which receives the serialized lane
JSON), and `merge_lanes_xml` is `BPMNMerger.merge_lanes`, which operates on
serialized XML text (its document-level content is verified separately
below as `merge_xml_lanes` / `add_sequence_flows_from_json` /
`add_pool_to_bpmn`). -/

/-- Per-lane fragment processing in `generate_bpmn` step 3: render the
lane, unwrap the `<file>` delimiter, then clean and validate. -/
def process_lane_fragment (render_lane : Lane → Except String String) (lane : Lane) :
    Except String String := do
  let lane_xml ← render_lane lane
  let lane_raw_xml ← remove_file_wrapper lane_xml
  validate_and_clean lane_raw_xml

/-- `generate_bpmn`: generate the process JSON (with retry), partition the
flows, normalize the lanes, render/clean/validate each lane fragment, then
hand the fragment list, the cross-lane flows and the pool name to the
merger.  The merger's output is returned as-is, together with the
reasoning text. -/
def generate_bpmn
    (call_llm_json : Nat → GenAttemptResult)
    (render_lane : Lane → Except String String)
    (merge_lanes_xml : List String → List SequenceFlow → String → Except String String) :
    Except String (String × String) := do
  let resp ←
    match generate_process_json call_llm_json with
    | .ok r => Except.ok r
    | .error (.service e) => Except.error e
    | .error (.schema lastErr) =>
      Except.error ("Failed to generate valid BPMN JSON after 3 attempts. Last error: " ++
        (attr_str lastErr))
  let json_bpmn := resp.bpmn
  let reasoning := resp.reasoning
  let (same_flow, different_flow) := extract_all_sequence_flows json_bpmn
  let all_lanes ← extract_all_lanes json_bpmn same_flow
  let xml_lanes_list ← all_lanes.mapM (process_lane_fragment render_lane)
  let pool_name := json_bpmn.process.pool.name
  let complete_bpmn_xml ← merge_lanes_xml xml_lanes_list different_flow pool_name
  Except.ok (complete_bpmn_xml, reasoning)

/-! ## Diagram documents (src/core/merger.py)

An ElementTree BPMN document, restricted to the structure the pipeline
produces and the merger reads: a `bpmn:process` whose direct children are
a `laneSet` (holding `lane` elements) and generic elements (flow nodes and
sequence flows, with their relevant attributes), and a `bpmndi:BPMNPlane`
whose direct children are shapes and edges in document order.  `find` /
`findall` with the paths used by merger.py resolve to first-match /
all-matches over these children. -/

structure Bounds where
  x : ℚ
  y : ℚ
  width : ℚ
  height : ℚ
deriving DecidableEq

structure Shape where
  id : Option String := none
  bpmnElement : Option String := none
  isHorizontal : Option String := none
  bounds : Option Bounds := none
deriving DecidableEq

structure Edge where
  id : Option String := none
  bpmnElement : Option String := none
  waypoints : List (ℚ × ℚ) := []
deriving DecidableEq

inductive PlaneChild where
  | shape (s : Shape)
  | edge (e : Edge)
deriving DecidableEq

structure Plane where
  bpmnElement : Option String := none
  children : List PlaneChild := []
deriving DecidableEq

structure XLane where
  id : Option String := none
  flowNodeRefs : List String := []
deriving DecidableEq

structure XElem where
  tag : String
  id : Option String := none
  sourceRef : Option String := none
  targetRef : Option String := none
deriving DecidableEq

inductive ProcChild where
  | laneSet (id : Option String) (lanes : List XLane)
  | el (e : XElem)
deriving DecidableEq

structure XProcess where
  id : Option String := none
  name : Option String := none
  children : List ProcChild := []
deriving DecidableEq

structure Collaboration where
  id : String
  participantId : String
  participantName : String
  processRef : Option String
deriving DecidableEq

structure BpmnDoc where
  collaboration : Option Collaboration := none
  process : Option XProcess := none
  plane : Option Plane := none
deriving DecidableEq

/-- `_is_mock_element`: id-substring sniffing for normalizer artifacts. -/
def is_mock_element (element_id : Option String) : Bool :=
  match element_id with
  | none => false
  | some s => str_contains (py_lower s) "mock_start" || str_contains (py_lower s) "mock_end"

/-- The `id` attribute of a direct process child. -/
def proc_child_id : ProcChild → Option String
  | .laneSet i _ => i
  | .el e => e.id

/-- `_remove_mock_elements`, process half: drop direct children whose id is
a mock id. -/
def remove_mock_process (p : XProcess) : XProcess :=
  { p with children := p.children.filter (fun c => ¬is_mock_element (proc_child_id c)) }

/-- `_remove_mock_elements`, diagram half: drop shapes and edges whose
`bpmnElement` is a mock id. -/
def remove_mock_plane (pl : Plane) : Plane :=
  { pl with children := pl.children.filter (fun c =>
      match c with
      | .shape s => ¬is_mock_element s.bpmnElement
      | .edge e => ¬is_mock_element e.bpmnElement) }

/-- First shape in document order whose `bpmnElement` attribute equals
`eid` (the XPath `.//bpmndi:BPMNShape[@bpmnElement='eid']`). -/
def find_shape : List PlaneChild → String → Option Shape
  | [], _ => none
  | .shape s :: rest, eid =>
    if s.bpmnElement == some eid then some s else find_shape rest eid
  | .edge _ :: rest, eid => find_shape rest eid

/-- `_get_lane_bounds`: locate the lane's shape, then read its bounds. -/
def get_lane_bounds (pl : Plane) (lane_id : String) : Option Bounds :=
  (find_shape pl.children lane_id).bind (fun s => s.bounds)

/-- Translation of a single shape's bounds by `(-x_gap, -y_gap)` (a shape
without bounds is left alone, as `bounds is None` is skipped). -/
def adjust_shape (x_gap y_gap : ℚ) (s : Shape) : Shape :=
  match s.bounds with
  | some b => { s with bounds := some { b with x := b.x - x_gap, y := b.y - y_gap } }
  | none => s

/-- `_adjust_diagram_coordinates` on one plane child: translate a shape's
bounds, or every waypoint of an edge, by `(-x_gap, -y_gap)`. -/
def adjust_plane_child (x_gap y_gap : ℚ) : PlaneChild → PlaneChild
  | .shape s => .shape (adjust_shape x_gap y_gap s)
  | .edge e => .edge { e with waypoints := e.waypoints.map (fun w => (w.1 - x_gap, w.2 - y_gap)) }

/-- `_adjust_diagram_coordinates`: rigid translation of every shape and
every edge waypoint in the plane.  (The Python method also receives a
`lane_id` argument that its body never uses.) -/
def adjust_diagram_coordinates (pl : Plane) (x_gap y_gap : ℚ) : Plane :=
  { pl with children := pl.children.map (adjust_plane_child x_gap y_gap) }

/-- The x/y/width rewrite `merge_xml_lanes` applies to the fragment's lane
shape (its height is untouched; absent bounds are left alone). -/
def set_shape_xyw (x y w : ℚ) (s : Shape) : Shape :=
  match s.bounds with
  | some b => { s with bounds := some { b with x := x, y := y, width := w } }
  | none => s

/-- Update the first shape matching `lane_id`: set its bounds' x, y and
width (when the shape exists and has bounds), leaving the height alone. -/
def update_lane_shape_children (lane_id : String) (x y w : ℚ) :
    List PlaneChild → List PlaneChild
  | [] => []
  | .shape s :: rest =>
    if s.bpmnElement == some lane_id then
      PlaneChild.shape (set_shape_xyw x y w s) :: rest
    else PlaneChild.shape s :: update_lane_shape_children lane_id x y w rest
  | .edge e :: rest => PlaneChild.edge e :: update_lane_shape_children lane_id x y w rest

/-- The lane-bounds update step of `merge_xml_lanes`, as a plane map. -/
def update_lane_shape_bounds (pl : Plane) (lane_id : String) (x y w : ℚ) : Plane :=
  { pl with children := update_lane_shape_children lane_id x y w pl.children }

/-- First `laneSet` child of the process (`find('.//bpmn:laneSet')`). -/
def find_first_laneset : List ProcChild → Option (List XLane)
  | [] => none
  | .laneSet _ lanes :: _ => some lanes
  | .el _ :: rest => find_first_laneset rest

/-- `base_laneset.append(deepcopy(merge_lane))`: append a lane to the first
`laneSet` child. -/
def append_lane_to_first_laneset : List ProcChild → XLane → List ProcChild
  | [], _ => []
  | .laneSet i lanes :: rest, l => .laneSet i (lanes ++ [l]) :: rest
  | .el e :: rest, l => .el e :: append_lane_to_first_laneset rest l

/-- The non-`laneSet` direct children of a process («add all process
elements (except laneSet)»). -/
def non_laneset_children (children : List ProcChild) : List ProcChild :=
  children.filter (fun c => match c with | .laneSet _ _ => false | .el _ => true)

/-- The running merge state: the growing base process and plane, the
vertical offset and height of the last placed lane, and the running
maximum lane width. -/
structure MergeAcc where
  proc : XProcess
  plane : Plane
  yOff : ℚ
  h : ℚ
  maxW : ℚ
deriving DecidableEq

/-- The loop body of `merge_xml_lanes` for one non-base fragment: a missing
process, plane, laneSet or lane bounds skips the fragment (returning the
state unchanged); a laneSet with no lane crashes (`merge_lane` is `None`);
otherwise the fragment is translated, its lane shape is repositioned, and
its lane, process children and diagram children are appended. -/
def merge_one_fragment (base_lane_bounds : Bounds) (acc : MergeAcc) (frag : BpmnDoc) :
    Except String MergeAcc :=
  match frag.process, frag.plane with
  | some mp0, some mpl0 =>
    let mp := remove_mock_process mp0
    let mpl := remove_mock_plane mpl0
    match find_first_laneset mp.children with
    | none => Except.ok acc
    | some lanes =>
      match lanes with
      | [] => Except.error "AttributeError: NoneType has no attribute get"
      | ml :: _ =>
        let mlid := attr_str ml.id
        match get_lane_bounds mpl mlid with
        | none => Except.ok acc
        | some mb =>
          let x_gap := mb.x - base_lane_bounds.x
          let new_lane_B_y := acc.yOff + acc.h
          let maxW := max acc.maxW mb.width
          let mpl2 := adjust_diagram_coordinates mpl x_gap (mb.y - new_lane_B_y)
          let mpl3 := update_lane_shape_bounds mpl2 mlid base_lane_bounds.x new_lane_B_y maxW
          Except.ok {
            proc := { acc.proc with children :=
              append_lane_to_first_laneset acc.proc.children ml ++
                non_laneset_children mp.children },
            plane := { acc.plane with children := acc.plane.children ++ mpl3.children },
            yOff := new_lane_B_y,
            h := mb.height,
            maxW := maxW }
  | _, _ => Except.ok acc

/-- The final width-equalizing pass: every shape with
`isHorizontal="true"` and bounds gets the running maximum width. -/
def set_lane_width_child (w : ℚ) : PlaneChild → PlaneChild
  | .shape s =>
    if s.isHorizontal == some "true" then
      match s.bounds with
      | some b => .shape { s with bounds := some { b with width := w } }
      | none => .shape s
    else .shape s
  | .edge e => .edge e

/-- Apply the width-equalizing pass to a plane. -/
def set_all_lane_widths (pl : Plane) (w : ℚ) : Plane :=
  { pl with children := pl.children.map (set_lane_width_child w) }

/-- `merge_xml_lanes`: fragment 0 is the base (its absence of a process,
plane, laneSet, lane or lane bounds is fatal); each later fragment is
folded in by `merge_one_fragment`; finally every lane shape's width is set
to the running maximum. -/
def merge_xml_lanes (lanes_xml : List BpmnDoc) : Except String BpmnDoc :=
  match lanes_xml with
  | [] => Except.error "No files provided for merging"
  | base :: rest =>
    match base.process, base.plane with
    | some bp0, some bpl0 =>
      let bp := remove_mock_process bp0
      let bpl := remove_mock_plane bpl0
      match find_first_laneset bp.children with
      | none => Except.error "Base file must contain a laneSet"
      | some lanes =>
        match lanes with
        | [] => Except.error "AttributeError: NoneType has no attribute get"
        | bl :: _ =>
          let blid := attr_str bl.id
          match get_lane_bounds bpl blid with
          | none => Except.error ("Could not find bounds for base lane: " ++ blid)
          | some bb => do
            let acc ← rest.foldlM (merge_one_fragment bb)
              { proc := bp, plane := bpl, yOff := bb.y, h := bb.height, maxW := bb.width }
            Except.ok { base with
              process := some acc.proc,
              plane := some (set_all_lane_widths acc.plane acc.maxW) }
    | _, _ => Except.error "Base file must contain process and BPMNPlane elements"

/-! ## Cross-lane flow insertion (merger.py, `add_sequence_flows_from_json`) -/

/-- `process.find(".//bpmn:sequenceFlow[@id='fid']")`. -/
def find_existing_seq_flow (children : List ProcChild) (fid : String) : Option XElem :=
  children.findSome? (fun c =>
    match c with
    | .el e => if e.tag == "sequenceFlow" && e.id == some fid then some e else none
    | .laneSet _ _ => none)

/-- The per-flow body of `add_sequence_flows_from_json`: skip on missing
data, an already-present flow id, an unlocated endpoint shape or missing
bounds; otherwise append one `sequenceFlow` to the process and one
two-waypoint edge to the plane, with `round`ed midpoint x coordinates and
the two-branch vertical rule. -/
def add_one_flow (st : XProcess × Plane) (flow : SequenceFlow) : XProcess × Plane :=
  let (p, pl) := st
  if flow.id.isEmpty || flow.sourceRef.isEmpty || flow.targetRef.isEmpty then (p, pl)
  else if (find_existing_seq_flow p.children flow.id).isSome then (p, pl)
  else
    match find_shape pl.children flow.sourceRef, find_shape pl.children flow.targetRef with
    | some source_shape, some target_shape =>
      match source_shape.bounds, target_shape.bounds with
      | some sb, some tb =>
        let waypoint_1_x := python_round (sb.x + sb.width / 2)
        let waypoint_2_x := python_round (tb.x + tb.width / 2)
        let wys :=
          if sb.y < tb.y then (python_round (sb.y + sb.height), python_round tb.y)
          else (python_round sb.y, python_round (tb.y + tb.height))
        let seq : XElem := { tag := "sequenceFlow", id := some flow.id,
                             sourceRef := some flow.sourceRef,
                             targetRef := some flow.targetRef }
        let edge : Edge := { id := some (flow.id ++ "_di"), bpmnElement := some flow.id,
                             waypoints := [((waypoint_1_x : ℚ), (wys.1 : ℚ)),
                                           ((waypoint_2_x : ℚ), (wys.2 : ℚ))] }
        ({ p with children := p.children ++ [ProcChild.el seq] },
         { pl with children := pl.children ++ [PlaneChild.edge edge] })
      | _, _ => (p, pl)
    | _, _ => (p, pl)

/-- `add_sequence_flows_from_json`: fatal when the document lacks a process
or plane; an empty flow list returns the document unchanged; otherwise the
per-flow body is folded over the list. -/
def add_sequence_flows_from_json (doc : BpmnDoc) (flows : List SequenceFlow) :
    Except String BpmnDoc :=
  match doc.process, doc.plane with
  | none, _ => Except.error "Process element not found in BPMN file"
  | some _, none => Except.error "BPMNPlane element not found in BPMN file"
  | some p, some pl =>
    if flows.isEmpty then Except.ok doc
    else
      let st := flows.foldl add_one_flow (p, pl)
      Except.ok { doc with process := some st.1, plane := some st.2 }

/-! ## Pool wrapping (merger.py, `add_pool_to_bpmn` / `_add_participant_shape`) -/

/-- `_add_participant_shape`: collect the bounds of every lane of the first
laneSet whose shape is located, and insert a participant shape, first in
the plane, with `x = int(min_x - 30)`, `y = int(min_y)`,
`width = int(first_lane_width + 30)`, `height = int(sum_heights)`
(`str(int(v))` truncation).  Without a laneSet, lanes, or any located lane
bounds, the plane is returned unchanged. -/
def add_participant_shape (pl : Plane) (p : XProcess) (participant_id : String) : Plane :=
  match find_first_laneset p.children with
  | none => pl
  | some lanes =>
    match lanes with
    | [] => pl
    | _ :: _ =>
      match lanes.filterMap (fun l => get_lane_bounds pl (attr_str l.id)) with
      | [] => pl
      | b0 :: bs =>
        let min_x := bs.foldl (fun m b => min m b.x) b0.x
        let min_y := bs.foldl (fun m b => min m b.y) b0.y
        let sum_heights := (b0 :: bs).foldl (fun acc b => acc + b.height) 0
        let first_lane_width := b0.width
        let shape : Shape := {
          id := some "participant_shape_1",
          bpmnElement := some participant_id,
          isHorizontal := some "true",
          bounds := some {
            x := (py_int (min_x - 30) : ℚ),
            y := (py_int min_y : ℚ),
            width := (py_int (first_lane_width + 30) : ℚ),
            height := (py_int sum_heights : ℚ) } }
        { pl with children := PlaneChild.shape shape :: pl.children }

/-- `add_pool_to_bpmn`: a missing process is fatal; any existing
collaboration is replaced by a fresh one (fixed ids) whose participant is
named by `main_actor` and references the process; when the diagram plane
exists, its `bpmnElement` is retargeted to the collaboration and the
participant shape is inserted. -/
def add_pool_to_bpmn (doc : BpmnDoc) (main_actor : String) : Except String BpmnDoc :=
  match doc.process with
  | none => Except.error "No bpmn:process element found in the XML"
  | some p =>
    let participant_id := "process_participant_1"
    let collaboration_id := "bpmnElement_of_the_Plane_1"
    let collab : Collaboration := {
      id := collaboration_id,
      participantId := participant_id,
      participantName := main_actor,
      processRef := p.id }
    match doc.plane with
    | some pl =>
      let pl2 := add_participant_shape { pl with bpmnElement := some collaboration_id } p
        participant_id
      Except.ok { doc with collaboration := some collab, plane := some pl2 }
    | none => Except.ok { doc with collaboration := some collab }

/-- The document-level part of `BPMNMerger.merge_lanes`: stack the (already
laid-out, lane-shaped) fragments, insert the cross-lane flows, wrap in the
pool.  The per-fragment `apply_layout` and `add_lane_shape` calls happen
upstream; our inputs are fragments that already carry their lane shape. -/
def merge_lanes_pipeline (set_lanes : List BpmnDoc) (diff_lane_flows : List SequenceFlow)
    (pool_name : String) : Except String BpmnDoc := do
  let merged ← merge_xml_lanes set_lanes
  let merged_with_flows ← add_sequence_flows_from_json merged diff_lane_flows
  add_pool_to_bpmn merged_with_flows pool_name

/-! ## Spec-level views used by the theorems -/

/-- The data `merge_one_fragment` extracts from a fragment when it neither
skips it nor crashes: the mock-stripped process and plane, the first lane
of the first laneSet, and that lane's located bounds. -/
def frag_merge_view (frag : BpmnDoc) : Option (XProcess × Plane × XLane × Bounds) :=
  match frag.process, frag.plane with
  | some p0, some pl0 =>
    let p := remove_mock_process p0
    let pl := remove_mock_plane pl0
    match find_first_laneset p.children with
    | none => none
    | some lanes =>
      match lanes with
      | [] => none
      | l :: _ =>
        match get_lane_bounds pl (attr_str l.id) with
        | none => none
        | some b => some (p, pl, l, b)
  | _, _ => none

/-- The state produced by one successful merge step, written out. -/
def merge_step_spec (base_lane_bounds : Bounds) (acc : MergeAcc)
    (p : XProcess) (pl : Plane) (l : XLane) (b : Bounds) : MergeAcc :=
  let new_y := acc.yOff + acc.h
  let maxW := max acc.maxW b.width
  let pl2 := adjust_diagram_coordinates pl (b.x - base_lane_bounds.x) (b.y - new_y)
  let pl3 := update_lane_shape_bounds pl2 (attr_str l.id) base_lane_bounds.x new_y maxW
  { proc := { acc.proc with children :=
      append_lane_to_first_laneset acc.proc.children l ++ non_laneset_children p.children },
    plane := { acc.plane with children := acc.plane.children ++ pl3.children },
    yOff := new_y,
    h := b.height,
    maxW := maxW }

/-- The lane width a fragment contributes to the running maximum. -/
def lane_width_of (frag : BpmnDoc) : ℚ :=
  match frag_merge_view frag with
  | some (_, _, _, b) => b.width
  | none => 0

/-- Run a boolean check on the document of a successful result (`false` on
an error result). -/
def on_ok (r : Except String BpmnDoc) (p : BpmnDoc → Bool) : Bool :=
  match r with
  | .ok d => p d
  | .error _ => false

/-- Does the merged process hold a direct child with the given id? -/
def doc_process_has_id (d : BpmnDoc) (eid : String) : Bool :=
  (d.process.getD {}).children.any (fun c => proc_child_id c == some eid)

/-- Does the merged diagram plane hold a shape or edge referencing the
given id? -/
def doc_plane_refs_id (d : BpmnDoc) (eid : String) : Bool :=
  (d.plane.getD {}).children.any (fun c =>
    match c with
    | .shape s => s.bpmnElement == some eid
    | .edge e => e.bpmnElement == some eid)

/-- Bounds of the first shape child of the plane (where the merger inserts
the participant shape). -/
def first_plane_shape_bounds (d : BpmnDoc) : Option Bounds :=
  match (d.plane.getD {}).children with
  | .shape s :: _ => s.bounds
  | _ => none

/-- The x coordinate of the first waypoint of the first edge in the plane. -/
def first_edge_wp1_x (d : BpmnDoc) : Option ℚ :=
  (d.plane.getD {}).children.findSome? (fun c =>
    match c with
    | .edge e => e.waypoints.head?.map (fun w => w.1)
    | .shape _ => none)

/-- The partitioner's effective bucketing key: the lane under which a flow
is filed, or `none` when it goes to the cross-lane bucket.  Both endpoints
must resolve through the index to the same lane AND both resolved lane ids
must be truthy (non-empty) — the condition actually tested by
`if source_lane and target_lane and source_lane == target_lane`. -/
def lane_key (idx : List (String × String)) (f : SequenceFlow) : Option String :=
  match dict_get idx f.sourceRef, dict_get idx f.targetRef with
  | some s, some t => if ¬s.isEmpty ∧ ¬t.isEmpty ∧ s = t then some s else none
  | _, _ => none

/-! ## Concrete instances used by witnesses and counterexamples -/

/-- A lane holding a single task: the normalizer must add both mocks. -/
def c1_lane : Lane :=
  { id := "lane_1", name := "Lane 1", order := 0,
    elements := [{ id := "a", type := "task", name := "A" }] }

/-- `c1_lane` after normalization (checked against `normalize_lane` in the
C1 theorem). -/
def c1_lane_norm : Lane :=
  { id := "lane_1", name := "Lane 1", order := 0,
    elements := [mock_start_event, { id := "a", type := "task", name := "A" }, mock_end_event],
    sequenceFlows := some [
      { id := "mock_start_event_flow", sourceRef := "mock_start_event", targetRef := "a" },
      { id := "end_event_flow", sourceRef := "a", targetRef := "mock_end_event" }] }

/-- A laid-out, lane-shaped rendering of `c1_lane_norm`: one shape per
element, one edge per flow, plus the lane's own bounding shape. -/
def c1_fragment : BpmnDoc :=
  { process := some
      { id := some "proc_1",
        children := [
          .laneSet (some "ls1")
            [{ id := some "lane_1",
               flowNodeRefs := ["mock_start_event", "a", "mock_end_event"] }],
          .el { tag := "startEvent", id := some "mock_start_event" },
          .el { tag := "task", id := some "a" },
          .el { tag := "endEvent", id := some "mock_end_event" },
          .el { tag := "sequenceFlow", id := some "mock_start_event_flow",
                sourceRef := some "mock_start_event", targetRef := some "a" },
          .el { tag := "sequenceFlow", id := some "end_event_flow",
                sourceRef := some "a", targetRef := some "mock_end_event" }] },
    plane := some
      { bpmnElement := some "proc_1",
        children := [
          .shape { id := some "lane_1_di", bpmnElement := some "lane_1",
                   isHorizontal := some "true", bounds := some ⟨0, 0, 500, 220⟩ },
          .shape { id := some "mock_start_event_di", bpmnElement := some "mock_start_event",
                   bounds := some ⟨60, 100, 36, 36⟩ },
          .shape { id := some "a_di", bpmnElement := some "a",
                   bounds := some ⟨160, 90, 100, 80⟩ },
          .shape { id := some "mock_end_event_di", bpmnElement := some "mock_end_event",
                   bounds := some ⟨320, 100, 36, 36⟩ },
          .edge { id := some "mock_start_event_flow_di",
                  bpmnElement := some "mock_start_event_flow",
                  waypoints := [(96, 118), (160, 118)] },
          .edge { id := some "end_event_flow_di", bpmnElement := some "end_event_flow",
                  waypoints := [(260, 118), (320, 118)] }] } }

/-- A schema-valid process whose only lane has the empty string as id. -/
def c3_bpmn : BPMN :=
  { process := { id := "p", name := "P", pool :=
      { id := "pool", name := "Pool",
        lanes := [{ id := "", name := "L", order := 0,
                    elements := [{ id := "a", type := "task", name := "A" },
                                 { id := "b", type := "task", name := "B" }] }],
        sequenceFlows := [{ id := "f1", sourceRef := "a", targetRef := "b" }] } } }

/-- A lane that already carries a start event, an end event and one flow. -/
def c5_lane : Lane :=
  { id := "l1", name := "L", order := 0,
    elements := [{ id := "s", type := "startEvent", name := "S" },
                 { id := "e", type := "endEvent", name := "E" }],
    sequenceFlows := some [{ id := "f1", sourceRef := "s", targetRef := "e" }] }

/-- The one same-lane flow of `c5_lane`. -/
def c5_flow : SequenceFlow := { id := "f1", sourceRef := "s", targetRef := "e" }

/-- A merged document with two located element shapes, integer-valued. -/
def c6_doc : BpmnDoc :=
  { process := some { id := some "p", children := [.el { tag := "task", id := some "a" }] },
    plane := some { children := [
      .shape { id := some "a_di", bpmnElement := some "a", bounds := some ⟨0, 0, 100, 40⟩ },
      .shape { id := some "b_di", bpmnElement := some "b", bounds := some ⟨200, 300, 100, 40⟩ }] } }

/-- A cross-lane flow from `a` down to `b`. -/
def c6_flow : SequenceFlow := { id := "fx", sourceRef := "a", targetRef := "b" }

/-- Like `c6_doc` but with an odd source width, so the horizontal midpoint
of the source shape is not an integer. -/
def c6b_doc : BpmnDoc :=
  { process := some { id := some "p", children := [] },
    plane := some { children := [
      .shape { id := some "a_di", bpmnElement := some "a", bounds := some ⟨0, 0, 1, 1⟩ },
      .shape { id := some "b_di", bpmnElement := some "b", bounds := some ⟨0, 2, 1, 1⟩ }] } }

/-- A merged two-lane document with integer lane bounds, ready for pool
wrapping. -/
def c7_doc : BpmnDoc :=
  { process := some
      { id := some "proc_1",
        children := [.laneSet (some "ls")
          [{ id := some "lane_1" }, { id := some "lane_2" }]] },
    plane := some { children := [
      .shape { id := some "lane_1_di", bpmnElement := some "lane_1",
               isHorizontal := some "true", bounds := some ⟨0, 0, 500, 220⟩ },
      .shape { id := some "lane_2_di", bpmnElement := some "lane_2",
               isHorizontal := some "true", bounds := some ⟨0, 220, 500, 180⟩ }] } }

/-- Like `c7_doc`, with a fractional lane x coordinate. -/
def c7b_doc : BpmnDoc :=
  { process := some
      { id := some "proc_1",
        children := [.laneSet (some "ls") [{ id := some "lane_1" }]] },
    plane := some { children := [
      .shape { id := some "lane_1_di", bpmnElement := some "lane_1",
               isHorizontal := some "true", bounds := some ⟨1/2, 0, 500, 220⟩ }] } }

/-- A minimal schema-valid generation response. -/
def c8_resp : BPMNResponse :=
  { bpmn := { process := { id := "p", name := "P", pool :=
      { id := "pool", name := "Pool", lanes := [], sequenceFlows := [] } } },
    reasoning := "report" }

/-- A generation response whose single lane is `c5_lane`. -/
def c4_resp : BPMNResponse :=
  { bpmn := { process := { id := "p", name := "P", pool :=
      { id := "pool", name := "Pool", lanes := [c5_lane], sequenceFlows := [] } } },
    reasoning := "report" }

/-- A generation collaborator that succeeds immediately with `c4_resp`. -/
def c4_cj : Nat → GenAttemptResult := fun _ => .success c4_resp

/-- A rendering collaborator returning a wrapped fragment that passes the
validator once unwrapped and cleaned. -/
def c4_render : Lane → Except String String :=
  fun _ => Except.ok "<file><?xml> definitions process startEvent endEvent</file>"

/-- A merge collaborator returning a document that fails the validator
(which the real string-level merger can do, e.g. when every start event of
every lane was a stripped mock and no "startEvent" text remains). -/
def c4_merge : List String → List SequenceFlow → String → Except String String :=
  fun _ _ _ => Except.ok "NOT_XML"

/-- The base-lane bounds used by the C2 witness. -/
def c2_bb : Bounds := ⟨0, 0, 500, 220⟩

/-- A running merge state after placing one lane of height 220 at y = 0. -/
def c2_acc : MergeAcc :=
  { proc := { id := some "proc_1",
              children := [.laneSet (some "ls1") [{ id := some "lane_1" }]] },
    plane := { children := [
      .shape { id := some "lane_1_di", bpmnElement := some "lane_1",
               isHorizontal := some "true", bounds := some ⟨0, 0, 500, 220⟩ }] },
    yOff := 0, h := 220, maxW := 500 }

/-- The mock-free process of the C2 witness fragment. -/
def c2_p : XProcess :=
  { id := some "proc_1",
    children := [
      .laneSet (some "ls2") [{ id := some "lane_2", flowNodeRefs := ["b"] }],
      .el { tag := "task", id := some "b" }] }

/-- The mock-free plane of the C2 witness fragment. -/
def c2_pl : Plane :=
  { bpmnElement := some "proc_1",
    children := [
      .shape { id := some "lane_2_di", bpmnElement := some "lane_2",
               isHorizontal := some "true", bounds := some ⟨10, 400, 700, 180⟩ },
      .shape { id := some "b_di", bpmnElement := some "b",
               bounds := some ⟨200, 450, 100, 80⟩ }] }

/-- The lane of the C2 witness fragment. -/
def c2_l : XLane := { id := some "lane_2", flowNodeRefs := ["b"] }

/-- The located lane bounds of the C2 witness fragment. -/
def c2_b : Bounds := ⟨10, 400, 700, 180⟩

/-- The C2 witness fragment (mock-free, so stripping leaves it unchanged). -/
def c2_frag : BpmnDoc := { process := some c2_p, plane := some c2_pl }

/-- Expected insertion result on `c6_doc`: one flow and one two-waypoint
edge appended, waypoints at the rounded midpoints, running source-bottom
to target-top since the source is above. -/
def c6_expected : BpmnDoc :=
  { process := some { id := some "p", children := [
      .el { tag := "task", id := some "a" },
      .el { tag := "sequenceFlow", id := some "fx",
            sourceRef := some "a", targetRef := some "b" }] },
    plane := some { children := [
      .shape { id := some "a_di", bpmnElement := some "a", bounds := some ⟨0, 0, 100, 40⟩ },
      .shape { id := some "b_di", bpmnElement := some "b", bounds := some ⟨200, 300, 100, 40⟩ },
      .edge { id := some "fx_di", bpmnElement := some "fx",
              waypoints := [(50, 40), (250, 300)] }] } }

/-- Expected pool-wrapping result on `c7_doc`. -/
def c7_expected : BpmnDoc :=
  { collaboration := some
      { id := "bpmnElement_of_the_Plane_1",
        participantId := "process_participant_1", participantName := "Pool",
        processRef := some "proc_1" },
    process := some
      { id := some "proc_1",
        children := [.laneSet (some "ls")
          [{ id := some "lane_1" }, { id := some "lane_2" }]] },
    plane := some { bpmnElement := some "bpmnElement_of_the_Plane_1", children := [
      .shape { id := some "participant_shape_1", bpmnElement := some "process_participant_1",
               isHorizontal := some "true", bounds := some ⟨-30, 0, 530, 400⟩ },
      .shape { id := some "lane_1_di", bpmnElement := some "lane_1",
               isHorizontal := some "true", bounds := some ⟨0, 0, 500, 220⟩ },
      .shape { id := some "lane_2_di", bpmnElement := some "lane_2",
               isHorizontal := some "true", bounds := some ⟨0, 220, 500, 180⟩ }] } }

/-! ## Theorems -/

/-- C10: merging an empty list of lane fragments raises
`ValueError("No files provided for merging")`; for a non-empty list,
fragment 0 is the base, and a missing process or diagram plane in the base
is fatal with `ValueError("Base file must contain process and BPMNPlane
elements")`. -/
theorem C10_merge_empty_and_base_guard :
    merge_xml_lanes ([] : List BpmnDoc) = Except.error "No files provided for merging" ∧
    ∀ (base : BpmnDoc) (rest : List BpmnDoc),
      base.process = none ∨ base.plane = none →
      merge_xml_lanes (base :: rest) =
        Except.error "Base file must contain process and BPMNPlane elements" := by
  refine ⟨rfl, ?_⟩
  intro base rest h
  cases hp : base.process <;> cases hpl : base.plane <;>
    simp_all [merge_xml_lanes]

/-- C10 witness: a concrete base fragment with no process is rejected. -/
theorem C10_witness :
    merge_xml_lanes [({ plane := some { children := [] } } : BpmnDoc)] =
      Except.error "Base file must contain process and BPMNPlane elements" :=
  C10_merge_empty_and_base_guard.2 _ [] (Or.inl rfl)

/-- C9 counterexample: the subprocess timeout is 30 seconds, not 60; a
layout collaborator that would deliver a full-size result within a
60-second budget is aborted by `apply_layout`. -/
theorem C9_counterexample :
    layout_timeout_seconds ≠ 60 ∧
    apply_layout "abcde"
        (fun t => if 60 ≤ t then .completed 0 "abcde" "" else .timedOut) =
      Except.error
        "Auto-layout timed out after 30 seconds. The BPMN diagram might be too complex." := by
  exact ⟨by decide, by decide⟩

/-- C9 (amended): the layout call is bounded by a hard 30-second timeout
with no retry (the outcome of the single granted call fully determines the
result); timeout expiry raises a fatal layout error, as does an output
shorter than 80% of the input's length; a successful result is never
truncated below that ratio and never empty. -/
theorem C9_layout_guard (xml : String) (run : Nat → SubprocOutcome) :
    (run layout_timeout_seconds = .timedOut →
      apply_layout xml run =
        Except.error
          "Auto-layout timed out after 30 seconds. The BPMN diagram might be too complex.") ∧
    (∀ out err, run layout_timeout_seconds = .completed 0 out err →
      (out.toList.length : ℚ) < (xml.toList.length : ℚ) * (4/5) →
      apply_layout xml run = Except.error "Auto-layout produced invalid output") ∧
    (∀ out, apply_layout xml run = Except.ok out →
      out.toList.isEmpty = false ∧
      (xml.toList.length : ℚ) * (4/5) ≤ (out.toList.length : ℚ)) ∧
    (∀ run2 : Nat → SubprocOutcome,
      run2 layout_timeout_seconds = run layout_timeout_seconds →
      apply_layout xml run2 = apply_layout xml run) := by
  refine ⟨?_, ?_, ?_, ?_⟩
  · intro h
    simp [apply_layout, h]
  · intro out err h hshort
    unfold apply_layout
    rw [h]
    dsimp only
    rw [if_neg (by simp), if_pos (Or.inr hshort)]
  · intro out h
    unfold apply_layout at h
    cases hr : run layout_timeout_seconds with
    | timedOut => rw [hr] at h; simp at h
    | completed rc o e =>
      rw [hr] at h
      dsimp only at h
      by_cases hrc : rc ≠ 0
      · rw [if_pos hrc] at h
        exact absurd h (by simp)
      · rw [if_neg hrc] at h
        by_cases hbad : o.toList.isEmpty = true ∨
            (o.toList.length : ℚ) < (xml.toList.length : ℚ) * (4/5)
        · rw [if_pos hbad] at h
          exact absurd h (by simp)
        · rw [if_neg hbad] at h
          injection h with h2
          subst h2
          push_neg at hbad
          exact ⟨by simpa using hbad.1, hbad.2⟩
  · intro run2 h
    unfold apply_layout
    rw [h]

/-- C9 witness for the amended theorem: a half-size output is rejected. -/
theorem C9_witness :
    apply_layout "abcdefghij" (fun _ => .completed 0 "abcd" "") =
      Except.error "Auto-layout produced invalid output" :=
  (C9_layout_guard "abcdefghij" (fun _ => .completed 0 "abcd" "")).2.1
    "abcd" "" rfl (by norm_num)

/-- C1 (code bug): the lane normalizer introduces the synthetic flow id
`end_event_flow` (connecting the last element to the mock end event), but
`_is_mock_element` matches only the substrings "mock_start" / "mock_end",
so this artifact survives mock stripping: after the full document-level
merge of a rendering of the normalized lane, the final document still
holds a `sequenceFlow` with id `end_event_flow` (whose `targetRef` is the
removed `mock_end_event`) and its diagram edge, while the mock events and
the start-side flow are stripped. -/
theorem C1_mock_end_flow_leaks :
    normalize_lane c1_lane [] = Except.ok c1_lane_norm ∧
    (c1_lane_norm.sequenceFlows.getD []).map (fun f => f.id) =
      ["mock_start_event_flow", "end_event_flow"] ∧
    ((c1_lane.sequenceFlows.getD []).map (fun f => f.id)).contains "end_event_flow" = false ∧
    (c1_lane.elements.map (fun e => e.id)).contains "end_event_flow" = false ∧
    is_mock_element (some "end_event_flow") = false ∧
    (non_laneset_children (c1_fragment.process.getD {}).children).map proc_child_id =
      c1_lane_norm.elements.map (fun e => some e.id) ++
        (c1_lane_norm.sequenceFlows.getD []).map (fun f => some f.id) ∧
    on_ok (merge_lanes_pipeline [c1_fragment] [] "Pool") (fun d =>
      doc_process_has_id d "end_event_flow" &&
      doc_plane_refs_id d "end_event_flow" &&
      !doc_process_has_id d "mock_start_event" &&
      !doc_process_has_id d "mock_end_event" &&
      !doc_process_has_id d "mock_start_event_flow" &&
      !doc_plane_refs_id d "mock_start_event" &&
      !doc_plane_refs_id d "mock_end_event" &&
      !doc_plane_refs_id d "mock_start_event_flow") = true := by
  refine ⟨by decide, by decide, by decide, by decide, by decide, by decide, by decide⟩

/-- C5 counterexample: `c5_lane` already holds a start and an end event,
yet normalizing it with its own same-lane flow list appends that list
again — the result is not equal to the input (the flow is duplicated). -/
theorem C5_counterexample :
    c5_lane.elements.any (fun e => e.type == "startEvent") = true ∧
    c5_lane.elements.any (fun e => e.type == "endEvent") = true ∧
    normalize_lane c5_lane [c5_flow] ≠ Except.ok c5_lane ∧
    normalize_lane c5_lane [c5_flow] =
      Except.ok { c5_lane with sequenceFlows := some [c5_flow, c5_flow] } := by
  refine ⟨by decide, by decide, by decide, by decide⟩

/-- C5 (amended): for a lane that already holds a start event and an end
event, normalization inserts no mock elements and no synthetic flows: the
elements are unchanged and the flow list is exactly the input flows with
the given same-lane flow list appended.  It reproduces the input exactly
when the appended flow list is empty (and the flows key is present), so
only that restricted form of the idempotence claim holds. -/
theorem C5_normalize_no_mocks (lane : Lane) (flows : List SequenceFlow)
    (hs : lane.elements.any (fun e => e.type == "startEvent") = true)
    (he : lane.elements.any (fun e => e.type == "endEvent") = true) :
    normalize_lane lane flows = Except.ok (add_flows_to_lane lane flows) ∧
    (add_flows_to_lane lane flows).elements = lane.elements ∧
    (∀ fl, flows = [] → lane.sequenceFlows = some fl →
      normalize_lane lane flows = Except.ok lane) := by
  have hel : (add_flows_to_lane lane flows).elements = lane.elements := rfl
  have hs2 : ∃ x ∈ lane.elements, x.type = "startEvent" := by simpa using hs
  have he2 : ∃ x ∈ lane.elements, x.type = "endEvent" := by simpa using he
  have hmain : normalize_lane lane flows = Except.ok (add_flows_to_lane lane flows) := by
    simp only [normalize_lane, add_flows_to_lane, hs2, he2]
    simp [hs2, he2]
    rfl
  refine ⟨hmain, hel, ?_⟩
  intro fl hflows hsf
  subst hflows
  have heq : add_flows_to_lane lane [] = lane := by
    obtain ⟨lid, lname, lorder, lels, lsf⟩ := lane
    simp only [Lane.mk.injEq] at hsf ⊢
    simp [add_flows_to_lane, hsf]
  rw [hmain, heq]

/-- C5 witness: normalizing `c5_lane` with an empty flow list reproduces it
exactly. -/
theorem C5_witness :
    normalize_lane c5_lane [] = Except.ok c5_lane :=
  (C5_normalize_no_mocks c5_lane [] (by decide) (by decide)).2.2
    [c5_flow] rfl rfl

/-- Unfolding lemma: lookup in a non-empty flow dict. -/
theorem flows_dict_get_cons (k' : String) (fs : List SequenceFlow)
    (rest : List (String × List SequenceFlow)) (L : String) :
    flows_dict_get ((k', fs) :: rest) L =
      if k' == L then fs else flows_dict_get rest L := by
  by_cases h : (k' == L) = true
  · rw [if_pos h]
    simp [flows_dict_get, List.find?_cons_of_pos, h]
  · rw [if_neg h]
    simp only [flows_dict_get]
    rw [List.find?_cons_of_neg]
    simpa using h

/-- Appending a flow under key `k` extends exactly the `k` bucket. -/
theorem flows_dict_get_append_self (d : List (String × List SequenceFlow))
    (k : String) (f : SequenceFlow) :
    flows_dict_get (flows_dict_append d k f) k = flows_dict_get d k ++ [f] := by
  induction d with
  | nil => simp [flows_dict_append, flows_dict_get_cons, flows_dict_get]
  | cons p rest ih =>
    obtain ⟨k', fs⟩ := p
    by_cases hk : (k' == k) = true
    · simp [flows_dict_append, hk, flows_dict_get_cons]
    · simp only [flows_dict_append, hk, Bool.false_eq_true, ite_false]
      rw [flows_dict_get_cons, flows_dict_get_cons, if_neg hk, if_neg hk]
      exact ih

/-- Appending a flow under key `k` leaves every other bucket unchanged. -/
theorem flows_dict_get_append_ne (d : List (String × List SequenceFlow))
    (k : String) (f : SequenceFlow) (L : String) (h : L ≠ k) :
    flows_dict_get (flows_dict_append d k f) L = flows_dict_get d L := by
  have hkL : (k == L) = false := by simpa using Ne.symm h
  induction d with
  | nil =>
    simp only [flows_dict_append]
    rw [flows_dict_get_cons, if_neg (by simp [hkL])]
  | cons p rest ih =>
    obtain ⟨k', fs⟩ := p
    by_cases hk : (k' == k) = true
    · have hk' : k' = k := by simpa using hk
      subst hk'
      simp only [flows_dict_append, hk, ite_true]
      rw [flows_dict_get_cons, flows_dict_get_cons,
        if_neg (by simp [hkL]), if_neg (by simp [hkL])]
    · simp only [flows_dict_append, hk, Bool.false_eq_true, ite_false]
      rw [flows_dict_get_cons, flows_dict_get_cons]
      by_cases hkL2 : (k' == L) = true
      · simp [hkL2]
      · rw [if_neg hkL2, if_neg hkL2]
        exact ih

/-- The partition fold characterized bucket by bucket: folding
`partition_step` over a flow list extends each same-lane bucket with, in
order, the flows whose `lane_key` is that lane, and the cross-lane list
with the flows whose `lane_key` is `none`. -/
theorem partition_fold (idx : List (String × String)) (flows : List SequenceFlow) :
    ∀ same0 diff0,
      (∀ L, flows_dict_get (flows.foldl (partition_step idx) (same0, diff0)).1 L =
        flows_dict_get same0 L ++ flows.filter (fun f => lane_key idx f == some L)) ∧
      (flows.foldl (partition_step idx) (same0, diff0)).2 =
        diff0 ++ flows.filter (fun f => (lane_key idx f).isNone) := by
  induction flows with
  | nil => intro same0 diff0; simp
  | cons f fs ih =>
    intro same0 diff0
    have hstep : List.foldl (partition_step idx) (same0, diff0) (f :: fs) =
        List.foldl (partition_step idx) (partition_step idx (same0, diff0) f) fs := rfl
    rcases hsrc : dict_get idx f.sourceRef with _ | s
    · have hkey : lane_key idx f = none := by simp [lane_key, hsrc]
      have hps : partition_step idx (same0, diff0) f = (same0, diff0 ++ [f]) := by
        simp [partition_step, hsrc]
      rw [hstep, hps]
      obtain ⟨ih1, ih2⟩ := ih same0 (diff0 ++ [f])
      refine ⟨fun L => ?_, ?_⟩
      · rw [ih1 L]; simp [hkey]
      · rw [ih2]; simp [hkey]
    · rcases htgt : dict_get idx f.targetRef with _ | t
      · have hkey : lane_key idx f = none := by simp [lane_key, hsrc, htgt]
        have hps : partition_step idx (same0, diff0) f = (same0, diff0 ++ [f]) := by
          simp [partition_step, hsrc, htgt]
        rw [hstep, hps]
        obtain ⟨ih1, ih2⟩ := ih same0 (diff0 ++ [f])
        refine ⟨fun L => ?_, ?_⟩
        · rw [ih1 L]; simp [hkey]
        · rw [ih2]; simp [hkey]
      · by_cases hc : ¬s.isEmpty ∧ ¬t.isEmpty ∧ s = t
        · have hkey : lane_key idx f = some s := by simp [lane_key, hsrc, htgt, hc]
          have hps : partition_step idx (same0, diff0) f =
              (flows_dict_append same0 s f, diff0) := by
            simp [partition_step, hsrc, htgt, hc]
          rw [hstep, hps]
          obtain ⟨ih1, ih2⟩ := ih (flows_dict_append same0 s f) diff0
          refine ⟨fun L => ?_, ?_⟩
          · rw [ih1 L]
            by_cases hL : L = s
            · subst hL
              rw [flows_dict_get_append_self]
              simp [hkey]
            · rw [flows_dict_get_append_ne _ _ _ _ hL]
              have hfalse : (lane_key idx f == some L) = false := by
                simp only [hkey]
                simpa using fun hh => hL hh.symm
              simp [hfalse]
          · rw [ih2]; simp [hkey]
        · have hkey : lane_key idx f = none := by
            simp only [lane_key, hsrc, htgt]
            rw [if_neg hc]
          have hps : partition_step idx (same0, diff0) f = (same0, diff0 ++ [f]) := by
            simp only [partition_step, hsrc, htgt]
            rw [if_neg hc]
          rw [hstep, hps]
          obtain ⟨ih1, ih2⟩ := ih same0 (diff0 ++ [f])
          refine ⟨fun L => ?_, ?_⟩
          · rw [ih1 L]; simp [hkey]
          · rw [ih2]; simp [hkey]

/-- C3 (amended): the partitioner files each global sequence flow under
`sameLaneFlows[L]` exactly when both endpoints resolve through the index
to the same non-empty lane id `L` (Python truthiness: an unresolved or
empty-string lane id sends the flow to the cross-lane list); each bucket
preserves the input order (it is a `filter` of the input), those
predicates are mutually exclusive and exhaustive, and the result is a
function of the input (deterministic). -/
theorem C3_partition_characterization (jb : BPMN) :
    (∀ L, flows_dict_get (extract_all_sequence_flows jb).1 L =
      jb.process.pool.sequenceFlows.filter
        (fun f => lane_key (element_to_lane_index jb.process.pool.lanes) f == some L)) ∧
    (extract_all_sequence_flows jb).2 =
      jb.process.pool.sequenceFlows.filter
        (fun f => (lane_key (element_to_lane_index jb.process.pool.lanes) f).isNone) := by
  obtain ⟨h1, h2⟩ := partition_fold (element_to_lane_index jb.process.pool.lanes)
    jb.process.pool.sequenceFlows [] []
  constructor
  · intro L
    have := h1 L
    simpa [extract_all_sequence_flows, flows_dict_get] using this
  · simpa [extract_all_sequence_flows] using h2

/-- C8: the generation + schema-validation step is attempted at most 3
times (the result depends only on the outcomes of attempts 1..3); when the
first k−1 attempts fail retryably and attempt k succeeds, the run proceeds
with exactly attempt k's JSON; when all 3 attempts fail retryably, a fatal
schema error carrying the last underlying cause is raised. -/
theorem C8_retry_semantics :
    (∀ f g : Nat → GenAttemptResult,
      (∀ i, 1 ≤ i → i ≤ 3 → f i = g i) →
      generate_process_json f = generate_process_json g) ∧
    (∀ (f : Nat → GenAttemptResult) (k : Nat) (r : BPMNResponse),
      1 ≤ k → k ≤ 3 →
      (∀ i, 1 ≤ i → i < k → ∃ e, f i = .invalidJson e) →
      f k = .success r →
      generate_process_json f = Except.ok r) ∧
    (∀ (f : Nat → GenAttemptResult) (e1 e2 e3 : String),
      f 1 = .invalidJson e1 → f 2 = .invalidJson e2 → f 3 = .invalidJson e3 →
      generate_process_json f = Except.error (.schema (some e3))) := by
  refine ⟨?_, ?_, ?_⟩
  · intro f g hag
    have h1 := hag 1 (by omega) (by omega)
    have h2 := hag 2 (by omega) (by omega)
    have h3 := hag 3 (by omega) (by omega)
    show gen_attempts f 1 3 none = gen_attempts g 1 3 none
    simp only [gen_attempts, h1, h2, h3]
  · intro f k r hk1 hk3 hfail hsucc
    interval_cases k
    · show gen_attempts f 1 3 none = Except.ok r
      simp [gen_attempts, hsucc]
    · obtain ⟨e1, he1⟩ := hfail 1 (by omega) (by omega)
      show gen_attempts f 1 3 none = Except.ok r
      simp [gen_attempts, he1, hsucc]
    · obtain ⟨e1, he1⟩ := hfail 1 (by omega) (by omega)
      obtain ⟨e2, he2⟩ := hfail 2 (by omega) (by omega)
      show gen_attempts f 1 3 none = Except.ok r
      simp [gen_attempts, he1, he2, hsucc]
  · intro f e1 e2 e3 h1 h2 h3
    show gen_attempts f 1 3 none = Except.error (.schema (some e3))
    simp [gen_attempts, h1, h2, h3]

/-- C8 witness: two retryable failures followed by a success on attempt 3
deliver attempt 3's response. -/
theorem C8_witness :
    generate_process_json
        (fun i => if i = 3 then .success c8_resp else .invalidJson "bad attempt") =
      Except.ok c8_resp :=
  C8_retry_semantics.2.1 _ 3 c8_resp (by omega) (by omega)
    (fun i hi1 hi3 => ⟨"bad attempt", by
      have hne : i ≠ 3 := by omega
      simp [hne]⟩)
    (by simp)

/-- C6 (amended): for a flow with non-empty fields whose id is not already
present and whose endpoint shapes are both located with bounds, exactly
one `sequenceFlow` and exactly one two-waypoint edge are appended; the
waypoints' x coordinates are the endpoint shapes' horizontal midpoints
rounded to integers (Python `round`, half to even), and the edge runs from
the source's bottom edge to the target's top edge exactly when the
source's top is strictly above the target's top, else from the source's
top to the target's bottom (y coordinates likewise rounded). -/
theorem C6_cross_flow_geometry (doc : BpmnDoc) (p : XProcess) (pl : Plane)
    (flow : SequenceFlow) (s t : Shape) (sb tb : Bounds)
    (hp : doc.process = some p) (hpl : doc.plane = some pl)
    (hid : flow.id.isEmpty = false)
    (hsr : flow.sourceRef.isEmpty = false)
    (htr : flow.targetRef.isEmpty = false)
    (hex : find_existing_seq_flow p.children flow.id = none)
    (hs : find_shape pl.children flow.sourceRef = some s)
    (ht : find_shape pl.children flow.targetRef = some t)
    (hsb : s.bounds = some sb) (htb : t.bounds = some tb) :
    add_sequence_flows_from_json doc [flow] = Except.ok { doc with
      process := some { p with children := p.children ++
        [ProcChild.el
          { tag := "sequenceFlow", id := some flow.id,
            sourceRef := some flow.sourceRef, targetRef := some flow.targetRef }] },
      plane := some { pl with children := pl.children ++
        [PlaneChild.edge
          { id := some (flow.id ++ "_di"), bpmnElement := some flow.id,
            waypoints :=
              if sb.y < tb.y then
                [((python_round (sb.x + sb.width / 2) : ℚ), (python_round (sb.y + sb.height) : ℚ)),
                 ((python_round (tb.x + tb.width / 2) : ℚ), (python_round tb.y : ℚ))]
              else
                [((python_round (sb.x + sb.width / 2) : ℚ), (python_round sb.y : ℚ)),
                 ((python_round (tb.x + tb.width / 2) : ℚ), (python_round (tb.y + tb.height) : ℚ))] }] } } := by
  unfold add_sequence_flows_from_json
  rw [hp, hpl]
  dsimp only
  rw [if_neg (by simp)]
  simp only [List.foldl_cons, List.foldl_nil]
  unfold add_one_flow
  rw [hid, hsr, htr]
  dsimp only
  rw [if_neg (by simp), if_neg (by simp [hex]), hs, ht]
  dsimp only
  rw [hsb, htb]
  dsimp only
  by_cases hy : sb.y < tb.y
  · rw [if_pos hy, if_pos hy]
  · rw [if_neg hy, if_neg hy]

/-- C6 witness: the amended geometry on a concrete document — source above
target, integer midpoints, edge (50, 40) → (250, 300). -/
theorem C6_witness :
    add_sequence_flows_from_json c6_doc [c6_flow] = Except.ok c6_expected := by
  have h := C6_cross_flow_geometry c6_doc
    { id := some "p", children := [.el { tag := "task", id := some "a" }] }
    { children := [
        .shape { id := some "a_di", bpmnElement := some "a", bounds := some ⟨0, 0, 100, 40⟩ },
        .shape { id := some "b_di", bpmnElement := some "b", bounds := some ⟨200, 300, 100, 40⟩ }] }
    c6_flow
    { id := some "a_di", bpmnElement := some "a", bounds := some ⟨0, 0, 100, 40⟩ }
    { id := some "b_di", bpmnElement := some "b", bounds := some ⟨200, 300, 100, 40⟩ }
    ⟨0, 0, 100, 40⟩ ⟨200, 300, 100, 40⟩
    rfl rfl rfl rfl rfl (by decide) (by decide) (by decide) rfl rfl
  rw [h]
  decide

/-- C6 counterexample: with a source shape of odd width (bounds
x = 0, width = 1) the horizontal midpoint is 1/2, but the stored waypoint
x is `round(1/2) = 0` — the waypoint is not the exact midpoint claimed. -/
theorem C6_counterexample :
    on_ok (add_sequence_flows_from_json c6b_doc [c6_flow])
      (fun d => decide (first_edge_wp1_x d = some (0 : ℚ))) = true ∧
    on_ok (add_sequence_flows_from_json c6b_doc [c6_flow])
      (fun d => decide (first_edge_wp1_x d = some ((0 : ℚ) + 1 / 2))) = false := by
  refine ⟨by decide, by decide⟩

/-- C7 (amended): for a document with a process, a plane, a non-empty lane
list whose lane shapes are locatable, the pool-wrapping step creates the
participant shape first in the plane with
`x = int(min lane x − 30)`, `y = int(min lane y)`,
`width = int(first lane width + 30)`, `height = int(sum of lane heights)`
— the spec formula composed with Python `int` truncation — and installs
the collaboration with the fixed ids, retargeting the plane. -/
theorem C7_participant_shape (doc : BpmnDoc) (p : XProcess) (pl : Plane)
    (lanes : List XLane) (b0 : Bounds) (bs : List Bounds) (name : String)
    (hp : doc.process = some p) (hpl : doc.plane = some pl)
    (hls : find_first_laneset p.children = some lanes)
    (hne : lanes ≠ [])
    (hlb : lanes.filterMap (fun l => get_lane_bounds pl (attr_str l.id)) = b0 :: bs) :
    add_pool_to_bpmn doc name = Except.ok { doc with
      collaboration := some
        { id := "bpmnElement_of_the_Plane_1",
          participantId := "process_participant_1", participantName := name,
          processRef := p.id },
      plane := some { pl with
        bpmnElement := some "bpmnElement_of_the_Plane_1",
        children := PlaneChild.shape
          { id := some "participant_shape_1",
            bpmnElement := some "process_participant_1", isHorizontal := some "true",
            bounds := some
              { x := (py_int (bs.foldl (fun m b => min m b.x) b0.x - 30) : ℚ),
                y := (py_int (bs.foldl (fun m b => min m b.y) b0.y) : ℚ),
                width := (py_int (b0.width + 30) : ℚ),
                height := (py_int ((b0 :: bs).foldl (fun acc b => acc + b.height) 0) : ℚ) } }
          :: pl.children } } := by
  unfold add_pool_to_bpmn
  rw [hp]
  dsimp only
  rw [hpl]
  dsimp only
  unfold add_participant_shape
  have hls2 : find_first_laneset p.children = some lanes := hls
  rw [show find_first_laneset p.children = some lanes from hls2]
  dsimp only
  cases lanes with
  | nil => exact absurd rfl hne
  | cons l ls =>
    dsimp only
    rw [show (l :: ls).filterMap
        (fun l => get_lane_bounds { pl with bpmnElement := some "bpmnElement_of_the_Plane_1" }
          (attr_str l.id)) = b0 :: bs from hlb]

/-- C7 witness: the amended formula on a concrete two-lane document. -/
theorem C7_witness :
    add_pool_to_bpmn c7_doc "Pool" = Except.ok c7_expected := by
  have h := C7_participant_shape c7_doc
    { id := some "proc_1",
      children := [.laneSet (some "ls") [{ id := some "lane_1" }, { id := some "lane_2" }]] }
    { children := [
        .shape { id := some "lane_1_di", bpmnElement := some "lane_1",
                 isHorizontal := some "true", bounds := some ⟨0, 0, 500, 220⟩ },
        .shape { id := some "lane_2_di", bpmnElement := some "lane_2",
                 isHorizontal := some "true", bounds := some ⟨0, 220, 500, 180⟩ }] }
    [{ id := some "lane_1" }, { id := some "lane_2" }]
    ⟨0, 0, 500, 220⟩ [⟨0, 220, 500, 180⟩] "Pool"
    rfl rfl rfl (by decide) (by decide)
  rw [h]
  decide

/-- C7 counterexample: with the lone lane shape at x = 1/2, the
participant shape's stored x is `int(1/2 − 30) = −29`, not the exact
`min(laneX) − 30 = −59/2` the claim states. -/
theorem C7_counterexample :
    on_ok (add_pool_to_bpmn c7b_doc "Pool")
      (fun d => decide ((first_plane_shape_bounds d).map (fun b => b.x) = some (-29 : ℚ))) =
        true ∧
    on_ok (add_pool_to_bpmn c7b_doc "Pool")
      (fun d => decide ((first_plane_shape_bounds d).map (fun b => b.x) =
        some ((1 / 2 : ℚ) - 30))) = false := by
  refine ⟨by decide, by decide⟩

/-- A successful `validate_and_clean` returns the cleaned text, and that
text itself passes `validate`. -/
theorem validate_and_clean_ok {x c : String} (h : validate_and_clean x = Except.ok c) :
    validate c = Except.ok () ∧ c = clean_xml x := by
  unfold validate_and_clean at h
  replace h : Except.map (fun _ => clean_xml x) (validate (clean_xml x)) = Except.ok c := h
  cases hv : validate (clean_xml x) with
  | ok u =>
    cases u
    rw [hv] at h
    replace h : (Except.ok (clean_xml x) : Except String String) = Except.ok c := h
    cases h
    exact ⟨hv, rfl⟩
  | error e =>
    rw [hv] at h
    exact Except.noConfusion h

/-- A fragment delivered by `process_lane_fragment` has passed `validate`. -/
theorem process_lane_fragment_validated (render : Lane → Except String String)
    (lane : Lane) (x : String)
    (h : process_lane_fragment render lane = Except.ok x) :
    validate x = Except.ok () := by
  unfold process_lane_fragment at h
  cases hr : render lane with
  | error e => rw [hr] at h; exact Except.noConfusion h
  | ok t =>
    rw [hr] at h
    replace h : (remove_file_wrapper t >>= fun raw => validate_and_clean raw) =
      Except.ok x := h
    cases hw : remove_file_wrapper t with
    | error e =>
      rw [hw] at h
      exact Except.noConfusion h
    | ok raw =>
      rw [hw] at h
      replace h : validate_and_clean raw = Except.ok x := h
      exact (validate_and_clean_ok h).1

/-- Members of a successful `mapM` over `Except` come from successful
applications of the mapped function. -/
theorem mapM_ok_mem {α β : Type} (f : α → Except String β) :
    ∀ (l : List α) (xs : List β), l.mapM f = Except.ok xs →
      ∀ x ∈ xs, ∃ a ∈ l, f a = Except.ok x := by
  intro l
  induction l with
  | nil =>
    intro xs h x hx
    simp only [List.mapM_nil] at h
    cases h
    simp at hx
  | cons a as ih =>
    intro xs h x hx
    rw [List.mapM_cons] at h
    cases hfa : f a with
    | error e => rw [hfa] at h; exact Except.noConfusion h
    | ok y =>
      rw [hfa] at h
      replace h : (as.mapM f >>= fun ys => pure (y :: ys)) = Except.ok xs := h
      cases hrest : as.mapM f with
      | error e =>
        rw [hrest] at h
        exact Except.noConfusion h
      | ok ys =>
        rw [hrest] at h
        replace h : (Except.ok (y :: ys) : Except String (List β)) = Except.ok xs := h
        cases h
        rcases List.mem_cons.mp hx with hxy | hxys
        · exact ⟨a, List.mem_cons_self a as, by rw [hfa, hxy]⟩
        · obtain ⟨b, hb, hfb⟩ := ih ys hrest x hxys
          exact ⟨b, List.mem_cons_of_mem a hb, hfb⟩

/-- C4 (amended): in every successful run, every rendered lane fragment has
been unwrapped, cleaned and has passed `validate`; the value the run
returns is exactly the merge collaborator's output, with no further clean
or validate applied to the final merged document.  (The fragment call site
in generator.py spells the validator entry point `clean_and_validate`,
while validator.py defines `validate_and_clean`; the intended
`validate_and_clean` is modelled.) -/
theorem C4_validation_coverage
    (cj : Nat → GenAttemptResult) (render : Lane → Except String String)
    (merge : List String → List SequenceFlow → String → Except String String)
    (out r : String) (resp : BPMNResponse) (lanes : List Lane) (xs : List String)
    (hrun : generate_bpmn cj render merge = Except.ok (out, r))
    (hresp : generate_process_json cj = Except.ok resp)
    (hlanes : extract_all_lanes resp.bpmn (extract_all_sequence_flows resp.bpmn).1 =
      Except.ok lanes)
    (hxs : lanes.mapM (process_lane_fragment render) = Except.ok xs) :
    (xs.all fun x => validate x == Except.ok ()) = true ∧
    merge xs (extract_all_sequence_flows resp.bpmn).2 resp.bpmn.process.pool.name =
      Except.ok out ∧
    r = resp.reasoning := by
  have hval : (xs.all fun x => validate x == Except.ok ()) = true := by
    rw [List.all_eq_true]
    intro x hx
    obtain ⟨a, _, hfa⟩ := mapM_ok_mem (process_lane_fragment render) lanes xs hxs x hx
    simpa using process_lane_fragment_validated render a x hfa
  refine ⟨hval, ?_⟩
  unfold generate_bpmn at hrun
  rw [hresp] at hrun
  replace hrun :
      (extract_all_lanes resp.bpmn (extract_all_sequence_flows resp.bpmn).1 >>=
        fun all_lanes => all_lanes.mapM (process_lane_fragment render) >>=
          fun xml_lanes_list =>
            merge xml_lanes_list (extract_all_sequence_flows resp.bpmn).2
                resp.bpmn.process.pool.name >>=
              fun complete => Except.ok (complete, resp.reasoning)) =
        Except.ok (out, r) := hrun
  rw [hlanes] at hrun
  replace hrun :
      (lanes.mapM (process_lane_fragment render) >>= fun xml_lanes_list =>
        merge xml_lanes_list (extract_all_sequence_flows resp.bpmn).2
            resp.bpmn.process.pool.name >>=
          fun complete => Except.ok (complete, resp.reasoning)) =
        Except.ok (out, r) := hrun
  rw [hxs] at hrun
  replace hrun :
      (merge xs (extract_all_sequence_flows resp.bpmn).2 resp.bpmn.process.pool.name >>=
        fun complete => Except.ok (complete, resp.reasoning)) = Except.ok (out, r) := hrun
  cases hm : merge xs (extract_all_sequence_flows resp.bpmn).2 resp.bpmn.process.pool.name with
  | error e => rw [hm] at hrun; exact Except.noConfusion hrun
  | ok m =>
    rw [hm] at hrun
    replace hrun : (Except.ok (m, resp.reasoning) : Except String (String × String)) =
      Except.ok (out, r) := hrun
    cases hrun
    exact ⟨rfl, rfl⟩

/-- C4 witness: a concrete successful run through the pipeline, with the
merge collaborator's output taken as-is. -/
theorem C4_witness :
    (["<?xml> definitions process startEvent endEvent"].all
      fun x => validate x == Except.ok ()) = true ∧
    c4_merge ["<?xml> definitions process startEvent endEvent"] [] "Pool" =
      Except.ok "NOT_XML" ∧
    "report" = c4_resp.reasoning :=
  C4_validation_coverage c4_cj c4_render c4_merge "NOT_XML" "report" c4_resp [c5_lane]
    ["<?xml> definitions process startEvent endEvent"]
    (by decide) (by decide) (by decide) (by decide)

/-- C4 counterexample: a run that completes successfully while its final
output fails `validate` — the pipeline validates every lane fragment but
never the final merged document (the claim's final clean+validate pass
does not exist in the code). -/
theorem C4_counterexample :
    generate_bpmn c4_cj c4_render c4_merge = Except.ok ("NOT_XML", "report") ∧
    validate "NOT_XML" =
      Except.error
        "Missing XML declaration. BPMN file must start with <?xml version=\"1.0\"?>" := by
  refine ⟨by decide, by decide⟩

/-- C3 counterexample: in `c3_bpmn` both endpoints of the only flow resolve
through the index to the same lane (the lane with the empty-string id),
yet the flow is filed under `crossLaneFlows` and no same-lane bucket is
created — the claim's "both resolve to the same lane" criterion is not
what the code implements. -/
theorem C3_counterexample :
    dict_get (element_to_lane_index c3_bpmn.process.pool.lanes) "a" = some "" ∧
    dict_get (element_to_lane_index c3_bpmn.process.pool.lanes) "b" = some "" ∧
    (extract_all_sequence_flows c3_bpmn).1 = [] ∧
    (extract_all_sequence_flows c3_bpmn).2 =
      [{ id := "f1", sourceRef := "a", targetRef := "b" }] := by
  refine ⟨by decide, by decide, by decide, by decide⟩

/-- Shape lookup distributes over append: a miss on the left continues on
the right. -/
theorem find_shape_append_of_none (a b : List PlaneChild) (eid : String)
    (h : find_shape a eid = none) :
    find_shape (a ++ b) eid = find_shape b eid := by
  induction a with
  | nil => rfl
  | cons c rest ih =>
    rw [List.cons_append]
    cases c with
    | shape s =>
      by_cases hs : (s.bpmnElement == some eid) = true
      · simp [find_shape, hs] at h
      · simp only [find_shape, hs, Bool.false_eq_true, ite_false] at h ⊢
        exact ih h
    | edge e =>
      simp only [find_shape] at h ⊢
      exact ih h

/-- Translation preserves which shape matches: lookup after
`adjust_diagram_coordinates` returns the translated original shape. -/
theorem find_shape_map_adjust (children : List PlaneChild) (g1 g2 : ℚ) (eid : String) :
    find_shape (children.map (adjust_plane_child g1 g2)) eid =
      (find_shape children eid).map (adjust_shape g1 g2) := by
  induction children with
  | nil => rfl
  | cons c rest ih =>
    cases c with
    | shape s =>
      have hel : (adjust_shape g1 g2 s).bpmnElement = s.bpmnElement := by
        unfold adjust_shape
        cases s.bounds <;> rfl
      by_cases hs : (s.bpmnElement == some eid) = true
      · simp [find_shape, adjust_plane_child, hel, hs]
      · simp only [List.map_cons, find_shape, adjust_plane_child, hel, hs,
          Bool.false_eq_true, ite_false]
        exact ih
    | edge e =>
      simp only [List.map_cons, find_shape, adjust_plane_child]
      exact ih

/-- The lane-shape update rewrites exactly the shape that lookup finds. -/
theorem find_shape_update (children : List PlaneChild) (eid : String) (x y w : ℚ) :
    find_shape (update_lane_shape_children eid x y w children) eid =
      (find_shape children eid).map (set_shape_xyw x y w) := by
  induction children with
  | nil => rfl
  | cons c rest ih =>
    cases c with
    | shape s =>
      have hel : (set_shape_xyw x y w s).bpmnElement = s.bpmnElement := by
        unfold set_shape_xyw
        cases s.bounds <;> rfl
      by_cases hs : (s.bpmnElement == some eid) = true
      · simp [update_lane_shape_children, find_shape, hel, hs]
      · simp only [update_lane_shape_children, hs, Bool.false_eq_true, ite_false,
          find_shape]
        exact ih
    | edge e =>
      simp only [update_lane_shape_children, find_shape]
      exact ih

/-- A fragment whose merge view is defined takes the full merge path: the
step function neither skips it nor fails, and produces exactly the state
written out by `merge_step_spec`. -/
theorem merge_one_fragment_eq (bb : Bounds) (acc : MergeAcc) (frag : BpmnDoc)
    (p : XProcess) (pl : Plane) (l : XLane) (b : Bounds)
    (hv : frag_merge_view frag = some (p, pl, l, b)) :
    merge_one_fragment bb acc frag = Except.ok (merge_step_spec bb acc p pl l b) := by
  unfold frag_merge_view at hv
  cases hp : frag.process with
  | none =>
    rw [hp] at hv
    exact Option.noConfusion hv
  | some p0 =>
    rw [hp] at hv
    cases hpl : frag.plane with
    | none =>
      rw [hpl] at hv
      exact Option.noConfusion hv
    | some pl0 =>
      rw [hpl] at hv
      replace hv :
          (match find_first_laneset (remove_mock_process p0).children with
            | none => none
            | some lanes =>
              match lanes with
              | [] => none
              | l0 :: _ =>
                match get_lane_bounds (remove_mock_plane pl0) (attr_str l0.id) with
                | none => none
                | some b0 =>
                  some (remove_mock_process p0, remove_mock_plane pl0, l0, b0)) =
            some (p, pl, l, b) := hv
      cases hls : find_first_laneset (remove_mock_process p0).children with
      | none =>
        rw [hls] at hv
        exact Option.noConfusion hv
      | some lanes =>
        rw [hls] at hv
        cases lanes with
        | nil => exact Option.noConfusion hv
        | cons l0 ls =>
          replace hv :
              (match get_lane_bounds (remove_mock_plane pl0) (attr_str l0.id) with
                | none => none
                | some b0 =>
                  some (remove_mock_process p0, remove_mock_plane pl0, l0, b0)) =
                some (p, pl, l, b) := hv
          cases hb : get_lane_bounds (remove_mock_plane pl0) (attr_str l0.id) with
          | none =>
            rw [hb] at hv
            exact Option.noConfusion hv
          | some b0 =>
            rw [hb] at hv
            replace hv :
                some (remove_mock_process p0, remove_mock_plane pl0, l0, b0) =
                  some (p, pl, l, b) := hv
            cases hv
            unfold merge_one_fragment
            rw [hp, hpl]
            dsimp only
            rw [hls]
            dsimp only
            rw [hb]
            rfl

/-- Folding the merge step over fragments with defined views succeeds, and
the running maximum width is the fold of the fragments' lane widths. -/
theorem foldlM_merge_maxW (bb : Bounds) (rest : List BpmnDoc) :
    ∀ acc : MergeAcc, (∀ f ∈ rest, (frag_merge_view f).isSome) →
      ∃ acc2, rest.foldlM (merge_one_fragment bb) acc = Except.ok acc2 ∧
        acc2.maxW = rest.foldl (fun m f => max m (lane_width_of f)) acc.maxW := by
  induction rest with
  | nil => exact fun acc _ => ⟨acc, rfl, rfl⟩
  | cons f fs ih =>
    intro acc hall
    have hf : (frag_merge_view f).isSome := hall f (List.mem_cons_self f fs)
    rw [Option.isSome_iff_exists] at hf
    obtain ⟨⟨p, pl, l, b⟩, hv⟩ := hf
    have hstep := merge_one_fragment_eq bb acc f p pl l b hv
    obtain ⟨acc2, h2, hw⟩ := ih (merge_step_spec bb acc p pl l b)
      (fun g hg => hall g (List.mem_cons_of_mem f hg))
    refine ⟨acc2, ?_, ?_⟩
    · rw [List.foldlM_cons, hstep]
      exact h2
    · rw [List.foldl_cons]
      have hlw : lane_width_of f = b.width := by
        unfold lane_width_of
        rw [hv]
      rw [hlw]
      exact hw

/-- Every lane shape (and only those, the `isHorizontal="true"` shapes
with bounds) carries the given width after the equalizing pass. -/
theorem set_all_lane_widths_width (pl : Plane) (w : ℚ) :
    ∀ s bd, PlaneChild.shape s ∈ (set_all_lane_widths pl w).children →
      s.isHorizontal = some "true" → s.bounds = some bd → bd.width = w := by
  intro s bd hmem hhor hb
  simp only [set_all_lane_widths, List.mem_map] at hmem
  obtain ⟨c0, _, heq⟩ := hmem
  cases c0 with
  | edge e => simp [set_lane_width_child] at heq
  | shape s0 =>
    by_cases hh : (s0.isHorizontal == some "true") = true
    · cases hb0 : s0.bounds with
      | some b2 =>
        have hs : s = { s0 with bounds := some { b2 with width := w } } := by
          simp only [set_lane_width_child, hh, ite_true, hb0] at heq
          exact (PlaneChild.shape.injEq _ _).mp heq |>.symm
        rw [hs] at hb
        replace hb : (some { b2 with width := w } : Option Bounds) = some bd := hb
        cases hb
        rfl
      | none =>
        have hs : s = s0 := by
          simp only [set_lane_width_child, hh, ite_true, hb0] at heq
          exact (PlaneChild.shape.injEq _ _).mp heq |>.symm
        rw [hs, hb0] at hb
        exact Option.noConfusion hb
    · have hs : s = s0 := by
        simp only [set_lane_width_child, hh, Bool.false_eq_true, ite_false] at heq
        exact (PlaneChild.shape.injEq _ _).mp heq |>.symm
      rw [hs] at hhor
      rw [hhor] at hh
      simp at hh

/-- `merge_xml_lanes` on a base with a defined merge view is the fold of
the step function, followed by the width-equalizing pass. -/
theorem merge_xml_lanes_eq (f0 : BpmnDoc) (rest : List BpmnDoc)
    (p0 : XProcess) (pl0 : Plane) (l0 : XLane) (b0 : Bounds)
    (hv : frag_merge_view f0 = some (p0, pl0, l0, b0)) :
    merge_xml_lanes (f0 :: rest) =
      (rest.foldlM (merge_one_fragment b0)
        { proc := p0, plane := pl0, yOff := b0.y, h := b0.height, maxW := b0.width } >>=
        fun acc => Except.ok { f0 with
          process := some acc.proc,
          plane := some (set_all_lane_widths acc.plane acc.maxW) }) := by
  unfold frag_merge_view at hv
  cases hp : f0.process with
  | none => rw [hp] at hv; exact Option.noConfusion hv
  | some p0x =>
    rw [hp] at hv
    cases hpl : f0.plane with
    | none => rw [hpl] at hv; exact Option.noConfusion hv
    | some pl0x =>
      rw [hpl] at hv
      replace hv :
          (match find_first_laneset (remove_mock_process p0x).children with
            | none => none
            | some lanes =>
              match lanes with
              | [] => none
              | lx :: _ =>
                match get_lane_bounds (remove_mock_plane pl0x) (attr_str lx.id) with
                | none => none
                | some bx =>
                  some (remove_mock_process p0x, remove_mock_plane pl0x, lx, bx)) =
            some (p0, pl0, l0, b0) := hv
      cases hls : find_first_laneset (remove_mock_process p0x).children with
      | none => rw [hls] at hv; exact Option.noConfusion hv
      | some lanes =>
        rw [hls] at hv
        cases lanes with
        | nil => exact Option.noConfusion hv
        | cons lx ls =>
          replace hv :
              (match get_lane_bounds (remove_mock_plane pl0x) (attr_str lx.id) with
                | none => none
                | some bx =>
                  some (remove_mock_process p0x, remove_mock_plane pl0x, lx, bx)) =
                some (p0, pl0, l0, b0) := hv
          cases hb : get_lane_bounds (remove_mock_plane pl0x) (attr_str lx.id) with
          | none => rw [hb] at hv; exact Option.noConfusion hv
          | some bx =>
            rw [hb] at hv
            replace hv :
                some (remove_mock_process p0x, remove_mock_plane pl0x, lx, bx) =
                  some (p0, pl0, l0, b0) := hv
            cases hv
            simp only [merge_xml_lanes]
            rw [hp, hpl]
            dsimp only
            rw [hls]
            dsimp only
            rw [hb]

/-- C2 (confirmed): (1) merging one more locatable lane fragment onto a
state whose last placed lane has top `yOff` and height `h` sets the new
lane's shape to exactly `y = yOff + h` (no gap, no overlap) and
`x = baseLane.x` — and the resulting state records that lane's placed top
and height, so the invariant chains; the running maximum width absorbs the
new lane's width.  (2) After all fragments are folded in, every lane shape
(`isHorizontal="true"`, with bounds) in the merged document has width
equal to the maximum lane width seen (the fold of `max` over the base's
and every fragment's lane width). -/
theorem C2_vertical_stacking :
    (∀ (bb : Bounds) (acc : MergeAcc) (frag : BpmnDoc) (p : XProcess) (pl : Plane)
        (l : XLane) (b : Bounds),
      frag_merge_view frag = some (p, pl, l, b) →
      merge_one_fragment bb acc frag = Except.ok (merge_step_spec bb acc p pl l b) ∧
      (merge_step_spec bb acc p pl l b).yOff = acc.yOff + acc.h ∧
      (merge_step_spec bb acc p pl l b).h = b.height ∧
      (merge_step_spec bb acc p pl l b).maxW = max acc.maxW b.width ∧
      (find_shape acc.plane.children (attr_str l.id) = none →
        get_lane_bounds (merge_step_spec bb acc p pl l b).plane (attr_str l.id) =
          some { x := bb.x, y := acc.yOff + acc.h,
                 width := max acc.maxW b.width, height := b.height })) ∧
    (∀ (f0 : BpmnDoc) (rest : List BpmnDoc) (doc : BpmnDoc) (p0 : XProcess)
        (pl0 : Plane) (l0 : XLane) (b0 : Bounds) (plD : Plane),
      frag_merge_view f0 = some (p0, pl0, l0, b0) →
      (∀ f ∈ rest, (frag_merge_view f).isSome) →
      merge_xml_lanes (f0 :: rest) = Except.ok doc →
      doc.plane = some plD →
      ∀ s bd, PlaneChild.shape s ∈ plD.children → s.isHorizontal = some "true" →
        s.bounds = some bd →
        bd.width = rest.foldl (fun m f => max m (lane_width_of f)) b0.width) := by
  constructor
  · intro bb acc frag p pl l b hv
    refine ⟨merge_one_fragment_eq bb acc frag p pl l b hv, rfl, rfl, rfl, ?_⟩
    intro hnone
    have hpl : (merge_step_spec bb acc p pl l b).plane.children =
        acc.plane.children ++
          (update_lane_shape_children (attr_str l.id) bb.x (acc.yOff + acc.h)
            (max acc.maxW b.width)
            (pl.children.map (adjust_plane_child (b.x - bb.x)
              (b.y - (acc.yOff + acc.h))))) := rfl
    unfold get_lane_bounds
    rw [hpl, find_shape_append_of_none _ _ _ hnone, find_shape_update,
      find_shape_map_adjust]
    obtain ⟨s0, hs0, hsb⟩ : ∃ s0, find_shape pl.children (attr_str l.id) = some s0 ∧
        s0.bounds = some b := by
      have hb : get_lane_bounds pl (attr_str l.id) = some b := by
        unfold frag_merge_view at hv
        cases hp : frag.process with
        | none => rw [hp] at hv; exact Option.noConfusion hv
        | some p0x =>
          rw [hp] at hv
          cases hplx : frag.plane with
          | none => rw [hplx] at hv; exact Option.noConfusion hv
          | some pl0x =>
            rw [hplx] at hv
            replace hv :
                (match find_first_laneset (remove_mock_process p0x).children with
                  | none => none
                  | some lanes =>
                    match lanes with
                    | [] => none
                    | lx :: _ =>
                      match get_lane_bounds (remove_mock_plane pl0x) (attr_str lx.id) with
                      | none => none
                      | some bx =>
                        some (remove_mock_process p0x, remove_mock_plane pl0x, lx, bx)) =
                  some (p, pl, l, b) := hv
            cases hls : find_first_laneset (remove_mock_process p0x).children with
            | none => rw [hls] at hv; exact Option.noConfusion hv
            | some lanes =>
              rw [hls] at hv
              cases lanes with
              | nil => exact Option.noConfusion hv
              | cons lx ls =>
                replace hv :
                    (match get_lane_bounds (remove_mock_plane pl0x) (attr_str lx.id) with
                      | none => none
                      | some bx =>
                        some (remove_mock_process p0x, remove_mock_plane pl0x, lx, bx)) =
                      some (p, pl, l, b) := hv
                cases hbx : get_lane_bounds (remove_mock_plane pl0x) (attr_str lx.id) with
                | none => rw [hbx] at hv; exact Option.noConfusion hv
                | some bx =>
                  rw [hbx] at hv
                  replace hv :
                      some (remove_mock_process p0x, remove_mock_plane pl0x, lx, bx) =
                        some (p, pl, l, b) := hv
                  cases hv
                  exact hbx
      unfold get_lane_bounds at hb
      cases hfs : find_shape pl.children (attr_str l.id) with
      | none => rw [hfs] at hb; exact Option.noConfusion hb
      | some s0 =>
        rw [hfs] at hb
        exact ⟨s0, rfl, hb⟩
    obtain ⟨sid, sel, shor, sbnds⟩ := s0
    cases hsb
    rw [hs0]
    rfl
  · intro f0 rest doc p0 pl0 l0 b0 plD hv hall hmerge hplD s bd hmem hhor hb
    rw [merge_xml_lanes_eq f0 rest p0 pl0 l0 b0 hv] at hmerge
    obtain ⟨acc2, hfold, hw⟩ := foldlM_merge_maxW b0 rest
      { proc := p0, plane := pl0, yOff := b0.y, h := b0.height, maxW := b0.width } hall
    rw [hfold] at hmerge
    replace hmerge : (Except.ok { f0 with
        process := some acc2.proc,
        plane := some (set_all_lane_widths acc2.plane acc2.maxW) } :
      Except String BpmnDoc) = Except.ok doc := hmerge
    cases hmerge
    replace hplD : (some (set_all_lane_widths acc2.plane acc2.maxW) : Option Plane) =
      some plD := hplD
    cases hplD
    have := set_all_lane_widths_width acc2.plane acc2.maxW s bd hmem hhor hb
    rw [this, hw]

/-- C2 witness: folding the concrete fragment `c2_frag` onto the state
`c2_acc` (last lane at top 0, height 220) places its lane shape at exactly
y = 220, x = 0, width 700 (the new maximum), height 180. -/
theorem C2_witness :
    merge_one_fragment c2_bb c2_acc c2_frag =
      Except.ok (merge_step_spec c2_bb c2_acc c2_p c2_pl c2_l c2_b) ∧
    get_lane_bounds (merge_step_spec c2_bb c2_acc c2_p c2_pl c2_l c2_b).plane
        (attr_str c2_l.id) =
      some { x := 0, y := 220, width := 700, height := 180 } := by
  have h := C2_vertical_stacking.1 c2_bb c2_acc c2_frag c2_p c2_pl c2_l c2_b (by decide)
  refine ⟨h.1, ?_⟩
  have h2 := h.2.2.2.2 (by decide)
  rw [h2]
  decide

end Text2BPMN
